import Mathlib

/-!
# NRFLite: a driver for the nRF24L01+ packet radio

A shallow embedding of `src/NRFLite.cpp`.  The driver object and everything it
talks to (the transceiver behind the serial bus, the pins, the microsecond
counter) are one explicit `State`; every method of the class is a function on
that state.  All bus traffic, pin writes and busy-waits are appended to a
chronological `trace`, so that "issues a FLUSH_RX" or "writes no register" are
statements about the trace.
-/

namespace NRFLite

/-! ## Register map and command set (NRFLite.h / nRF24L01.h) -/

/-- The avr-libc macro `_BV(bit)`, that is `1 << bit`. -/
def _BV (bit : Nat) : Nat := 1 <<< bit

/-- Modelled from the spec: CONFIG register address of the chip's register map (NRFLite.h is not under src/). -/
def CONFIG : Nat := 0x00
/-- Modelled from the spec: EN_AA register address (NRFLite.h is not under src/). -/
def EN_AA : Nat := 0x01
/-- Modelled from the spec: EN_RXADDR register address (NRFLite.h is not under src/). -/
def EN_RXADDR : Nat := 0x02
/-- Modelled from the spec: SETUP_AW register address (NRFLite.h is not under src/). -/
def SETUP_AW : Nat := 0x03
/-- Modelled from the spec: SETUP_RETR register address (NRFLite.h is not under src/). -/
def SETUP_RETR : Nat := 0x04
/-- Modelled from the spec: RF_CH register address (NRFLite.h is not under src/). -/
def RF_CH : Nat := 0x05
/-- Modelled from the spec: RF_SETUP register address (NRFLite.h is not under src/). -/
def RF_SETUP : Nat := 0x06
/-- Modelled from the spec: STATUS register address (NRFLite.h is not under src/). -/
def STATUS : Nat := 0x07
/-- Modelled from the spec: OBSERVE_TX register address (NRFLite.h is not under src/). -/
def OBSERVE_TX : Nat := 0x08
/-- Modelled from the spec: RX_ADDR_P0 register address (NRFLite.h is not under src/). -/
def RX_ADDR_P0 : Nat := 0x0A
/-- Modelled from the spec: RX_ADDR_P1 register address (NRFLite.h is not under src/). -/
def RX_ADDR_P1 : Nat := 0x0B
/-- Modelled from the spec: TX_ADDR register address (NRFLite.h is not under src/). -/
def TX_ADDR : Nat := 0x10
/-- Modelled from the spec: RX_PW_P0 register address (NRFLite.h is not under src/). -/
def RX_PW_P0 : Nat := 0x11
/-- Modelled from the spec: RX_PW_P1 register address (NRFLite.h is not under src/). -/
def RX_PW_P1 : Nat := 0x12
/-- Modelled from the spec: FIFO_STATUS register address (NRFLite.h is not under src/). -/
def FIFO_STATUS : Nat := 0x17
/-- Modelled from the spec: DYNPD register address (NRFLite.h is not under src/). -/
def DYNPD : Nat := 0x1C
/-- Modelled from the spec: FEATURE register address (NRFLite.h is not under src/). -/
def FEATURE : Nat := 0x1D

/-- Modelled from the spec: CONFIG bit EN_CRC (NRFLite.h is not under src/). -/
def EN_CRC : Nat := 3
/-- Modelled from the spec: CONFIG bit PWR_UP, the power-on bit (NRFLite.h is not under src/). -/
def PWR_UP : Nat := 1
/-- Modelled from the spec: CONFIG bit PRIM_RX, the primary-RX bit (NRFLite.h is not under src/). -/
def PRIM_RX : Nat := 0
/-- Modelled from the spec: STATUS bit RX_DR, data ready (NRFLite.h is not under src/). -/
def RX_DR : Nat := 6
/-- Modelled from the spec: STATUS bit TX_DS, transmission succeeded (NRFLite.h is not under src/). -/
def TX_DS : Nat := 5
/-- Modelled from the spec: STATUS bit MAX_RT, max retries exceeded (NRFLite.h is not under src/). -/
def MAX_RT : Nat := 4
/-- Modelled from the spec: FIFO_STATUS bit FIFO_FULL, TX FIFO full (NRFLite.h is not under src/). -/
def FIFO_FULL : Nat := 5
/-- Modelled from the spec: FIFO_STATUS bit TX_EMPTY (NRFLite.h is not under src/). -/
def TX_EMPTY : Nat := 4
/-- Modelled from the spec: FIFO_STATUS bit RX_FULL (NRFLite.h is not under src/). -/
def RX_FULL : Nat := 1
/-- Modelled from the spec: FIFO_STATUS bit RX_EMPTY (NRFLite.h is not under src/). -/
def RX_EMPTY : Nat := 0
/-- Modelled from the spec: DYNPD bit DPL_P1 (NRFLite.h is not under src/). -/
def DPL_P1 : Nat := 1
/-- Modelled from the spec: DYNPD bit DPL_P0 (NRFLite.h is not under src/). -/
def DPL_P0 : Nat := 0
/-- Modelled from the spec: FEATURE bit EN_DPL (NRFLite.h is not under src/). -/
def EN_DPL : Nat := 2
/-- Modelled from the spec: FEATURE bit EN_ACK_PAY (NRFLite.h is not under src/). -/
def EN_ACK_PAY : Nat := 1
/-- Modelled from the spec: FEATURE bit EN_DYN_ACK (NRFLite.h is not under src/). -/
def EN_DYN_ACK : Nat := 0

/-- Modelled from the spec: command byte "read register" (NRFLite.h is not under src/). -/
def R_REGISTER : Nat := 0x00
/-- Modelled from the spec: command byte "write register" (NRFLite.h is not under src/). -/
def W_REGISTER : Nat := 0x20
/-- Modelled from the spec: the 5-bit register-address mask (NRFLite.h is not under src/). -/
def REGISTER_MASK : Nat := 0x1F
/-- Modelled from the spec: command byte of the payload-length query (NRFLite.h is not under src/). -/
def R_RX_PL_WID : Nat := 0x60
/-- Modelled from the spec: command byte "read payload" (NRFLite.h is not under src/). -/
def R_RX_PAYLOAD : Nat := 0x61
/-- Modelled from the spec: command byte "write payload" (NRFLite.h is not under src/). -/
def W_TX_PAYLOAD : Nat := 0xA0
/-- Modelled from the spec: command byte "write ACK payload" (NRFLite.h is not under src/). -/
def W_ACK_PAYLOAD : Nat := 0xA8
/-- Modelled from the spec: command byte "write payload, no ACK" (NRFLite.h is not under src/). -/
def W_TX_PAYLOAD_NO_ACK : Nat := 0xB0
/-- Modelled from the spec: command byte "flush TX FIFO" (NRFLite.h is not under src/). -/
def FLUSH_TX : Nat := 0xE1
/-- Modelled from the spec: command byte "flush RX FIFO" (NRFLite.h is not under src/). -/
def FLUSH_RX : Nat := 0xE2

/-- Modelled from the spec: the three bitrate tiers of `enum Bitrates` (NRFLite.h is not under src/). -/
inductive Bitrates
  | BITRATE2MBPS
  | BITRATE1MBPS
  | BITRATE250KBPS
  deriving DecidableEq, Repr

/-- Modelled from the spec: the ack policies of `enum SendType` (NRFLite.h is not under src/). -/
inductive SendType
  | REQUIRE_ACK
  | NO_ACK
  deriving DecidableEq, Repr

/-- Modelled from the spec: `enum SpiTransferType` (NRFLite.h is not under src/). -/
inductive SpiTransferType
  | READ_OPERATION
  | WRITE_OPERATION
  deriving DecidableEq, Repr

/-! ## Machine integers -/

/-- Truncation to `uint8_t`. -/
def u8 (n : Nat) : Nat := n % 256

/-- Truncation to `uint32_t`. -/
def u32 (n : Nat) : Nat := n % 4294967296

/-- The bit pattern of C's `~n` on a 16-bit `int` holding a small non-negative `n`. -/
def complement (n : Nat) : Nat := 0xFFFF ^^^ n

/-- A byte read as a C truth value. -/
def truthy (n : Nat) : Bool := n != 0

/-! ## The transceiver behind the bus -/

/-- One entry of the RX FIFO: the pipe it arrived on, the length the chip
declares for it (what R_RX_PL_WID answers) and its bytes. -/
structure RxPacket where
  pipe : Nat
  width : Nat
  payload : List Nat
  deriving DecidableEq, Repr

/-- One entry of the TX FIFO: the command that queued it and its bytes. -/
structure TxPacket where
  command : Nat
  payload : List Nat
  deriving DecidableEq, Repr

/-- State of the transceiver: plain registers, the latched upper STATUS bits,
both FIFOs, and the answer it gives to a payload-length query on an empty RX FIFO. -/
structure Chip where
  regs : Nat → List Nat
  irq : Nat
  rxFifo : List RxPacket
  txFifo : List TxPacket
  idleWidth : Nat

namespace Chip

/-- The STATUS byte: latched bits 7..4, pipe of the RX FIFO head in bits 3..1
(111 when the FIFO is empty), TX FIFO full in bit 0. -/
def status (c : Chip) : Nat :=
  (c.irq &&& 0xF0)
    ||| (((match c.rxFifo with
            | [] => 7
            | p :: _ => p.pipe) &&& 7) <<< 1)
    ||| (if 3 ≤ c.txFifo.length then 1 else 0)

/-- The FIFO_STATUS byte. -/
def fifoStatus (c : Chip) : Nat :=
  (if c.rxFifo = [] then _BV RX_EMPTY else 0)
    ||| (if 3 ≤ c.rxFifo.length then _BV RX_FULL else 0)
    ||| (if c.txFifo = [] then _BV TX_EMPTY else 0)
    ||| (if 3 ≤ c.txFifo.length then _BV FIFO_FULL else 0)

/-- The answer to the payload-length query. -/
def plWidth (c : Chip) : Nat :=
  match c.rxFifo with
  | [] => c.idleWidth
  | p :: _ => p.width

/-- Exactly `n` bytes out of `bytes`, zero-filled. -/
def clock (bytes : List Nat) (n : Nat) : List Nat :=
  (bytes ++ List.replicate n 0).take n

/-- Content of a register as read over the bus. -/
def readReg (c : Chip) (addr : Nat) : List Nat :=
  if addr = STATUS then [c.status]
  else if addr = FIFO_STATUS then [c.fifoStatus]
  else c.regs addr

/-- Register write: the STATUS flags RX_DR, TX_DS and MAX_RT are cleared by
writing 1 to them, FIFO_STATUS is read-only, every other register stores what is written. -/
def writeReg (c : Chip) (addr : Nat) (data : List Nat) : Chip :=
  if addr = STATUS then { c with irq := c.irq &&& complement (data.headD 0 &&& 0x70) }
  else if addr = FIFO_STATUS then c
  else { c with regs := Function.update c.regs addr data }

/-- One bus transaction: the command byte, then `sent.length` bytes clocked
out while as many are clocked back. -/
def transfer (c : Chip) (command : Nat) (sent : List Nat) : Chip × List Nat :=
  if command = R_RX_PL_WID then (c, clock [c.plWidth] sent.length)
  else if command = R_RX_PAYLOAD then
    ({ c with rxFifo := c.rxFifo.tail },
      clock (match c.rxFifo with
             | [] => []
             | p :: _ => p.payload) sent.length)
  else if command = FLUSH_TX then ({ c with txFifo := [] }, clock [] sent.length)
  else if command = FLUSH_RX then ({ c with rxFifo := [] }, clock [] sent.length)
  else if command = W_TX_PAYLOAD ∨ command = W_TX_PAYLOAD_NO_ACK ∨ command &&& 0xF8 = W_ACK_PAYLOAD then
    ({ c with txFifo := if 3 ≤ c.txFifo.length then c.txFifo
                        else c.txFifo ++ [{ command := command, payload := sent }] },
      clock [] sent.length)
  else if command &&& 0xE0 = R_REGISTER then
    (c, clock (c.readReg (command &&& REGISTER_MASK)) sent.length)
  else if command &&& 0xE0 = W_REGISTER then
    (c.writeReg (command &&& REGISTER_MASK) sent, clock [] sent.length)
  else (c, clock [] sent.length)

/-- What the hardware does on its own while the driver waits: `f` may change the
latched flags and the FIFOs, never the configuration registers. -/
def evolve (f : Chip → Chip) (c : Chip) : Chip :=
  { f c with regs := c.regs }

end Chip

/-! ## The driver object and its surroundings -/

/-- What the driver does to the outside, in order. -/
inductive Event
  | pinMode (pin : Nat) (output : Bool)
  | digitalWrite (pin : Nat) (level : Bool)
  | spiBegin
  | transfer (command : Nat) (sent : List Nat)
  | delayMicroseconds (us : Nat)
  deriving DecidableEq, Repr

/-- The fields of the `NRFLite` object, the transceiver, the pin levels, the board's
SS pin number, the free-running microsecond clock, the scheduled hardware activity (one step is
consumed by each busy-wait) and the trace. -/
structure State where
  _cePin : Nat
  _csnPin : Nat
  _enableInterruptFlagsReset : Nat
  _allowedDataCheckIntervalMicros : Nat
  _transmissionRetryWaitMicros : Nat
  _microsSinceLastDataCheck : Nat
  chip : Chip
  pins : Nat → Bool
  boardSS : Nat
  now : Nat
  air : List (Chip → Chip)
  trace : List Event

/-- Arduino `digitalWrite`. -/
def digitalWrite (s : State) (pin : Nat) (level : Bool) : State :=
  { s with pins := Function.update s.pins pin level,
           trace := s.trace ++ [Event.digitalWrite pin level] }

/-- Arduino `digitalRead`. -/
def digitalRead (s : State) (pin : Nat) : Bool := s.pins pin

/-- Arduino `pinMode`. -/
def pinMode (s : State) (pin : Nat) (output : Bool) : State :=
  { s with trace := s.trace ++ [Event.pinMode pin output] }

/-- Arduino `micros`: the free-running counter, as an `unsigned long`. -/
def micros (s : State) : Nat := u32 s.now

/-- Arduino `delayMicroseconds`: time passes and the hardware takes its next scheduled step. -/
def delayMicroseconds (s : State) (us : Nat) : State :=
  { s with now := s.now + us,
           chip := match s.air with
                   | [] => s.chip
                   | f :: _ => s.chip.evolve f,
           air := s.air.tail,
           trace := s.trace ++ [Event.delayMicroseconds us] }

/-- Method `NRFLite::spiTransfer`, the ATmega branch: select low, the command byte, `length`
bytes of `data` out (each replaced by the byte read back on a READ_OPERATION), select high.
Returns the buffer as it is afterwards. -/
def spiTransfer (s : State) (transferType : SpiTransferType) (regName : Nat)
    (data : List Nat) (length : Nat) : State × List Nat :=
  let s1 := digitalWrite s s._csnPin false
  let sent := Chip.clock data length
  let r := s1.chip.transfer regName sent
  let s2 := { s1 with chip := r.1, trace := s1.trace ++ [Event.transfer regName sent] }
  (digitalWrite s2 s._csnPin true,
    if transferType = SpiTransferType.READ_OPERATION then r.2.map u8 ++ data.drop length else data)

/-- Method `NRFLite::readRegister(regName, data, length)`. -/
def readRegisterN (s : State) (regName : Nat) (data : List Nat) (length : Nat) : State × List Nat :=
  spiTransfer s SpiTransferType.READ_OPERATION (R_REGISTER ||| (REGISTER_MASK &&& regName)) data length

/-- Method `NRFLite::readRegister(regName)`. -/
def readRegister (s : State) (regName : Nat) : State × Nat :=
  let r := readRegisterN s regName [0] 1
  (r.1, r.2.headD 0)

/-- Method `NRFLite::writeRegister(regName, data, length)`. -/
def writeRegisterN (s : State) (regName : Nat) (data : List Nat) (length : Nat) : State :=
  (spiTransfer s SpiTransferType.WRITE_OPERATION (W_REGISTER ||| (REGISTER_MASK &&& regName)) data length).1

/-- Method `NRFLite::writeRegister(regName, data)`. -/
def writeRegister (s : State) (regName : Nat) (data : Nat) : State :=
  writeRegisterN s regName [u8 data] 1

/-- Method `NRFLite::getPipeOfFirstRxFifoPacket`. -/
def getPipeOfFirstRxFifoPacket (s : State) : State × Nat :=
  let r := readRegister s STATUS
  (r.1, (r.2 &&& 0b1110) >>> 1)

/-- Method `NRFLite::getRxFifoPacketLength`. -/
def getRxFifoPacketLength (s : State) : State × Nat :=
  let r := spiTransfer s SpiTransferType.READ_OPERATION R_RX_PL_WID [0] 1
  let dataLength := r.2.headD 0
  if dataLength > 32 then
    ((spiTransfer r.1 SpiTransferType.WRITE_OPERATION FLUSH_RX [] 0).1, 0)
  else
    (r.1, dataLength)

/-- Method `NRFLite::hasAckData`. -/
def hasAckData (s : State) : State × Nat :=
  let r := getPipeOfFirstRxFifoPacket s
  if r.2 = 0 then getRxFifoPacketLength r.1
  else (r.1, 0)

/-- The rate-limit gate at the head of `NRFLite::hasData`: `none` when the call must
return 0 at once, else the state with the time of this check recorded. -/
def hasDataGate (s : State) (usingInterrupts : Nat) : Option State :=
  if s._cePin = s._csnPin ∧ usingInterrupts = 0 then
    if u32 (micros s + 4294967296 - u32 s._microsSinceLastDataCheck) < s._allowedDataCheckIntervalMicros then
      none
    else
      some { s with _microsSinceLastDataCheck := micros s }
  else some s

/-- Method `NRFLite::hasData`. -/
def hasData (s : State) (usingInterrupts : Nat) : State × Nat :=
  match hasDataGate s usingInterrupts with
  | none => (s, 0)
  | some s0 =>
    let r := readRegister s0 CONFIG
    let originalConfigReg := r.2
    let newConfigReg := originalConfigReg ||| _BV PWR_UP ||| _BV PRIM_RX
    let s1 := if originalConfigReg ≠ newConfigReg then writeRegister r.1 CONFIG newConfigReg else r.1
    let s2 := if s1._cePin ≠ s1._csnPin then
                (if digitalRead s1 s1._cePin = false then digitalWrite s1 s1._cePin true else s1)
              else s1
    let s3 := if originalConfigReg &&& _BV PWR_UP = 0 then delayMicroseconds s2 1630 else s2
    let p := getPipeOfFirstRxFifoPacket s3
    if p.2 = 1 then getRxFifoPacketLength p.1
    else (p.1, 0)

/-- Method `NRFLite::hasDataISR`. -/
def hasDataISR (s : State) : State × Nat := hasData s 1

/-- Method `NRFLite::readData`; returns the caller's buffer as it is afterwards. -/
def readData (s : State) (data : List Nat) : State × List Nat :=
  let l := spiTransfer s SpiTransferType.READ_OPERATION R_RX_PL_WID [0] 1
  let dataLength := l.2.headD 0
  let r := spiTransfer l.1 SpiTransferType.READ_OPERATION R_RX_PAYLOAD data dataLength
  let st := readRegister r.1 STATUS
  let statusReg := st.2
  if truthy (statusReg &&& _BV RX_DR) then
    let st2 := readRegister st.1 STATUS
    (writeRegister st2.1 STATUS (st2.2 ||| _BV RX_DR), r.2)
  else
    (st.1, r.2)

/-- Arduino `delay`, in milliseconds. -/
def delay (s : State) (ms : Nat) : State := delayMicroseconds s (1000 * ms)

/-- The two calls `SPI.setClockDivider(SPI_CLOCK_DIV2); SPI.begin()`: the SPI library makes
SS an output and drives it high. -/
def spiBegin (s : State) : State :=
  { s with pins := Function.update s.pins s.boardSS true,
           trace := s.trace ++ [Event.spiBegin] }

/-- Method `NRFLite::init`, the ATmega branch. -/
def init (s : State) (radioId cePin csnPin : Nat) (bitrate : Bitrates) (channel : Nat) : State × Nat :=
  let s := delay s 100
  let s := { s with _cePin := u8 cePin, _csnPin := u8 csnPin, _enableInterruptFlagsReset := 1 }
  let savedSS := digitalRead s s.boardSS
  let s := spiBegin s
  let s := if s._csnPin ≠ s.boardSS then digitalWrite s s.boardSS savedSS else s
  let s := pinMode (pinMode s s._cePin true) s._csnPin true
  let s := digitalWrite s s._csnPin true
  let channel := if u8 channel > 125 then 125 else u8 channel
  let s := writeRegister s RF_CH channel
  let s :=
    if bitrate = Bitrates.BITRATE2MBPS then
      let s := writeRegister s RF_SETUP 0b00001110
      let s := writeRegister s SETUP_RETR 0b00011111
      { s with _allowedDataCheckIntervalMicros := 600, _transmissionRetryWaitMicros := 250 }
    else if bitrate = Bitrates.BITRATE1MBPS then
      let s := writeRegister s RF_SETUP 0b00000110
      let s := writeRegister s SETUP_RETR 0b00011111
      { s with _allowedDataCheckIntervalMicros := 1200, _transmissionRetryWaitMicros := 1000 }
    else
      let s := writeRegister s RF_SETUP 0b00100110
      let s := writeRegister s SETUP_RETR 0b01011111
      { s with _allowedDataCheckIntervalMicros := 8000, _transmissionRetryWaitMicros := 1500 }
  let s := writeRegisterN s RX_ADDR_P1 [1, 2, 3, 4, u8 radioId] 5
  let s := writeRegister s DYNPD (_BV DPL_P0 ||| _BV DPL_P1)
  let s := writeRegister s FEATURE (_BV EN_DPL ||| _BV EN_ACK_PAY ||| _BV EN_DYN_ACK)
  let s := (spiTransfer s SpiTransferType.WRITE_OPERATION FLUSH_RX [] 0).1
  let s := (spiTransfer s SpiTransferType.WRITE_OPERATION FLUSH_TX [] 0).1
  let st := readRegister s STATUS
  let s := writeRegister st.1 STATUS (st.2 ||| _BV RX_DR ||| _BV TX_DS ||| _BV MAX_RT)
  let newConfigReg := _BV PWR_UP ||| _BV PRIM_RX ||| _BV EN_CRC
  let s := writeRegister s CONFIG newConfigReg
  let s := digitalWrite s s._cePin true
  let s := delayMicroseconds s 1630
  let r := readRegister s CONFIG
  (r.1, if r.2 = newConfigReg then 1 else 0)

/-- Method `NRFLite::addAckData`. -/
def addAckData (s : State) (data : List Nat) (length : Nat) (removeExistingAcks : Nat) : State :=
  let s := if removeExistingAcks ≠ 0 then
             (spiTransfer s SpiTransferType.WRITE_OPERATION FLUSH_TX [] 0).1
           else s
  (spiTransfer s SpiTransferType.WRITE_OPERATION (W_ACK_PAYLOAD ||| 1) data (u8 length)).1

/-- The drain loop of `NRFLite::prepForTransmission` (`while (!(fifoReg & _BV(TX_EMPTY)))`),
with `fuel` bounding the number of iterations; `none` when the fuel runs out. -/
def drainLoop : Nat → State → Nat → Option State
  | fuel, s, fifoReg =>
    if truthy (fifoReg &&& _BV TX_EMPTY) then some s
    else
      match fuel with
      | 0 => none
      | fuel + 1 =>
        let s := digitalWrite s s._cePin true
        let s := delayMicroseconds s 11
        let s := digitalWrite s s._cePin false
        let s := delayMicroseconds s s._transmissionRetryWaitMicros
        let st := readRegister s STATUS
        let statusReg := st.2
        let s :=
          if truthy (statusReg &&& _BV TX_DS) then
            writeRegister st.1 STATUS (statusReg ||| _BV TX_DS)
          else if truthy (statusReg &&& _BV MAX_RT) then
            writeRegister (spiTransfer st.1 SpiTransferType.WRITE_OPERATION FLUSH_TX [] 0).1
              STATUS (statusReg ||| _BV MAX_RT)
          else st.1
        let f := readRegister s FIFO_STATUS
        drainLoop fuel f.1 f.2

/-- Method `NRFLite::prepForTransmission`; `fuel` bounds the drain loop. -/
def prepForTransmission (fuel : Nat) (s : State) (toRadioId : Nat) (sendType : SendType) :
    Option State :=
  let address := [1, 2, 3, 4, u8 toRadioId]
  let s := writeRegisterN s TX_ADDR address 5
  let s := writeRegisterN s RX_ADDR_P0 address 5
  let r := readRegister s CONFIG
  let originalConfigReg := r.2
  let newConfigReg := u8 (originalConfigReg &&& complement (_BV PRIM_RX) ||| _BV PWR_UP)
  let s :=
    if originalConfigReg ≠ newConfigReg then
      let s :=
        if truthy (originalConfigReg &&& _BV PRIM_RX) ∧ truthy (originalConfigReg &&& _BV PWR_UP) then
          (if digitalRead r.1 r.1._cePin = true then digitalWrite r.1 r.1._cePin false else r.1)
        else r.1
      let s := writeRegister s CONFIG newConfigReg
      delayMicroseconds s 1630
    else r.1
  let f := readRegister s FIFO_STATUS
  let fifoReg := f.2
  let s :=
    if truthy (fifoReg &&& _BV RX_FULL) ∧ sendType = SendType.REQUIRE_ACK then
      (spiTransfer f.1 SpiTransferType.WRITE_OPERATION FLUSH_RX [] 0).1
    else f.1
  if truthy (fifoReg &&& _BV FIFO_FULL) then
    let s := { s with _enableInterruptFlagsReset := 0 }
    (drainLoop fuel s fifoReg).map fun s => { s with _enableInterruptFlagsReset := 1 }
  else some s

/-- The part of `send` and `startSend` after the preparation: queue the payload, with or
without an ACK request, and pulse the enable line when it is a pin of its own. -/
def enqueueAndTrigger (s : State) (data : List Nat) (length : Nat) (sendType : SendType) : State :=
  let s :=
    if sendType = SendType.NO_ACK then
      (spiTransfer s SpiTransferType.WRITE_OPERATION W_TX_PAYLOAD_NO_ACK data (u8 length)).1
    else
      (spiTransfer s SpiTransferType.WRITE_OPERATION W_TX_PAYLOAD data (u8 length)).1
  if s._cePin ≠ s._csnPin then
    let s := digitalWrite s s._cePin true
    let s := delayMicroseconds s 11
    digitalWrite s s._cePin false
  else s

/-- One poll of the wait loop of `NRFLite::send`: wait the retry interval, then read STATUS. -/
def poll (s : State) : State × Nat :=
  readRegister (delayMicroseconds s s._transmissionRetryWaitMicros) STATUS

/-- The state the wait loop is in after `k` polls that made it go round again. -/
def afterPolls : Nat → State → State
  | 0, s => s
  | k + 1, s => afterPolls k (poll s).1

/-- The wait loop of `NRFLite::send` (`while (1)`), with `fuel` bounding the number of
polls; `none` when the fuel runs out. -/
def sendWait : Nat → State → Option (State × Nat)
  | 0, _ => none
  | fuel + 1, s =>
    let st := poll s
    let statusReg := st.2
    if truthy (statusReg &&& _BV TX_DS) then
      some (writeRegister st.1 STATUS (statusReg ||| _BV TX_DS), 1)
    else if truthy (statusReg &&& _BV MAX_RT) then
      let s := (spiTransfer st.1 SpiTransferType.WRITE_OPERATION FLUSH_TX [] 0).1
      some (writeRegister s STATUS (statusReg ||| _BV MAX_RT), 0)
    else sendWait fuel st.1

/-- The part of `NRFLite::send` between the preparation and the wait loop: clear stale
TX flags, queue the payload and start the transmission. -/
def sendStart (s : State) (data : List Nat) (length : Nat) (sendType : SendType) : State :=
  let st := readRegister s STATUS
  let statusReg := st.2
  let s :=
    if truthy (statusReg &&& _BV TX_DS) ∨ truthy (statusReg &&& _BV MAX_RT) then
      writeRegister st.1 STATUS (statusReg ||| _BV TX_DS ||| _BV MAX_RT)
    else st.1
  enqueueAndTrigger s data length sendType

/-- The poll of the wait loop of `send` that follows `k` polls showing neither TX_DS nor
MAX_RT, in a `send` whose preparation ended in state `s0`: the state after the STATUS read,
and the STATUS byte read. -/
def pollAt (k : Nat) (s0 : State) (data : List Nat) (length : Nat) (sendType : SendType) :
    State × Nat :=
  poll (afterPolls k (sendStart s0 data length sendType))

/-- Method `NRFLite::send`; `prepFuel` bounds the drain loop of the preparation and `waitFuel`
the number of polls of the wait loop. -/
def send (prepFuel waitFuel : Nat) (s : State) (toRadioId : Nat) (data : List Nat) (length : Nat)
    (sendType : SendType) : Option (State × Nat) :=
  match prepForTransmission prepFuel s toRadioId sendType with
  | none => none
  | some s => sendWait waitFuel (sendStart s data length sendType)

/-- Method `NRFLite::startSend`. -/
def startSend (prepFuel : Nat) (s : State) (toRadioId : Nat) (data : List Nat) (length : Nat)
    (sendType : SendType) : Option State :=
  (prepForTransmission prepFuel s toRadioId sendType).map fun s =>
    enqueueAndTrigger s data length sendType

/-- Method `NRFLite::whatHappened`; returns `tx_ok`, `tx_fail` and `rx_ready`. -/
def whatHappened (s : State) : State × Nat × Nat × Nat :=
  let st := readRegister s STATUS
  let statusReg := st.2
  let tx_ok := statusReg &&& _BV TX_DS
  let tx_fail := statusReg &&& _BV MAX_RT
  let rx_ready := statusReg &&& _BV RX_DR
  if st.1._enableInterruptFlagsReset ≠ 0 then
    (writeRegister st.1 STATUS (statusReg ||| _BV TX_DS ||| _BV MAX_RT ||| _BV RX_DR),
      tx_ok, tx_fail, rx_ready)
  else
    (st.1, tx_ok, tx_fail, rx_ready)

/-- Method `NRFLite::powerDown`. -/
def powerDown (s : State) : State :=
  let s := if s._cePin ≠ s._csnPin then digitalWrite s s._cePin false else s
  let r := readRegister s CONFIG
  writeRegister r.1 CONFIG (r.2 &&& complement (_BV PWR_UP))

/-- Method `NRFLite::printDetails`: the register reads it makes, in order; the text it sends to
the serial sink is not part of the state. -/
def printDetails (s : State) : State :=
  let s := (readRegister s CONFIG).1
  let s := (readRegister s EN_AA).1
  let s := (readRegister s EN_RXADDR).1
  let s := (readRegister s SETUP_AW).1
  let s := (readRegister s SETUP_RETR).1
  let s := (readRegister s RF_CH).1
  let s := (readRegister s RF_SETUP).1
  let s := (readRegister s STATUS).1
  let s := (readRegister s OBSERVE_TX).1
  let s := (readRegister s RX_PW_P0).1
  let s := (readRegister s RX_PW_P1).1
  let s := (readRegister s FIFO_STATUS).1
  let s := (readRegister s DYNPD).1
  let s := (readRegister s FEATURE).1
  let d := readRegisterN s TX_ADDR [0, 0, 0, 0, 0] 5
  let d := readRegisterN d.1 RX_ADDR_P0 d.2 5
  let d := readRegisterN d.1 RX_ADDR_P1 d.2 5
  d.1

/-! ## The steps of `prepForTransmission` -/

/-- The state `prepForTransmission` is in when it has written the destination address and read
CONFIG as `originalConfigReg`, just before `writeRegister(CONFIG, newConfigReg)` on the path
where the two differ: the enable line has been brought low if the radio was listening. -/
def prepStandby (s : State) (toRadioId : Nat) : State :=
  let address := [1, 2, 3, 4, u8 toRadioId]
  let s := writeRegisterN s TX_ADDR address 5
  let s := writeRegisterN s RX_ADDR_P0 address 5
  let r := readRegister s CONFIG
  let originalConfigReg := r.2
  if truthy (originalConfigReg &&& _BV PRIM_RX) ∧ truthy (originalConfigReg &&& _BV PWR_UP) then
    (if digitalRead r.1 r.1._cePin = true then digitalWrite r.1 r.1._cePin false else r.1)
  else r.1

/-- The first half of `prepForTransmission`, up to the end of the block "Ensure radio is
powered on and ready for TX operation". -/
def prepMode (s : State) (toRadioId : Nat) : State :=
  let address := [1, 2, 3, 4, u8 toRadioId]
  let s := writeRegisterN s TX_ADDR address 5
  let s := writeRegisterN s RX_ADDR_P0 address 5
  let r := readRegister s CONFIG
  let originalConfigReg := r.2
  let newConfigReg := u8 (originalConfigReg &&& complement (_BV PRIM_RX) ||| _BV PWR_UP)
  if originalConfigReg ≠ newConfigReg then
    let s :=
      if truthy (originalConfigReg &&& _BV PRIM_RX) ∧ truthy (originalConfigReg &&& _BV PWR_UP) then
        (if digitalRead r.1 r.1._cePin = true then digitalWrite r.1 r.1._cePin false else r.1)
      else r.1
    let s := writeRegister s CONFIG newConfigReg
    delayMicroseconds s 1630
  else r.1

/-- The step of `prepForTransmission` between the mode change and the drain loop: read
FIFO_STATUS as `fifoReg` and flush a full RX FIFO when an ACK is required.  Returns the state
and `fifoReg`. -/
def prepFifoCheck (s : State) (sendType : SendType) : State × Nat :=
  let f := readRegister s FIFO_STATUS
  let fifoReg := f.2
  let s :=
    if truthy (fifoReg &&& _BV RX_FULL) ∧ sendType = SendType.REQUIRE_ACK then
      (spiTransfer f.1 SpiTransferType.WRITE_OPERATION FLUSH_RX [] 0).1
    else f.1
  (s, fifoReg)

/-! ## Vocabulary of the statements -/

/-- The fields of the `NRFLite` object itself. -/
def fields (s : State) : Nat × Nat × Nat × Nat × Nat × Nat :=
  (s._cePin, s._csnPin, s._enableInterruptFlagsReset, s._allowedDataCheckIntervalMicros,
    s._transmissionRetryWaitMicros, s._microsSinceLastDataCheck)

/-- The events appended to the trace between state `s` and a later state `s1`. -/
def eventsSince (s s1 : State) : List Event := s1.trace.drop s.trace.length

/-- Retry time encoded in a SETUP_RETR byte, after the comment in `init`: upper 4 bits,
0 = 250 us, 1 = 500 us, 2 = 750 us, ... -/
def retryDelayMicros (setupRetr : Nat) : Nat := 250 * (setupRetr >>> 4 + 1)

/-- Retry count encoded in a SETUP_RETR byte, after the comment in `init`: lower 4 bits. -/
def retryCount (setupRetr : Nat) : Nat := setupRetr &&& 0x0F

/-- The state in which `prepForTransmission` ends when it needs no fuel. -/
def prepared (s : State) (toRadioId : Nat) (sendType : SendType) : State :=
  (prepForTransmission 0 s toRadioId sendType).getD s

/-- The value `newConfigReg` that `prepForTransmission` computes from `originalConfigReg`. -/
def txConfigReg (originalConfigReg : Nat) : Nat :=
  u8 (originalConfigReg &&& complement (_BV PRIM_RX) ||| _BV PWR_UP)

/-- State `b` comes after state `a` with the fields of the driver object and the plain registers
unchanged and without any write to CONFIG in between. -/
def leavesConfig (a b : State) : Prop :=
  fields b = fields a ∧ b.chip.regs = a.chip.regs
  ∧ ∃ rest, b.trace = a.trace ++ rest
      ∧ ∀ sent, Event.transfer (W_REGISTER ||| (REGISTER_MASK &&& CONFIG)) sent ∉ rest

/-- The state in which `startSend` ends when one round of the drain loop is enough. -/
def started (s : State) (toRadioId : Nat) (data : List Nat) (length : Nat) (sendType : SendType) :
    State :=
  (startSend 1 s toRadioId data length sendType).getD s

/-! ## Concrete configurations used to run the model -/

/-- A transceiver with cleared registers and empty FIFOs. -/
def blankChip : Chip :=
  { regs := fun _ => [0], irq := 0, rxFifo := [], txFifo := [], idleWidth := 0 }

/-- A driver wired with separate enable (9) and select (10) pins at 2 Mbps timing. -/
def bench : State :=
  { _cePin := 9, _csnPin := 10, _enableInterruptFlagsReset := 1,
    _allowedDataCheckIntervalMicros := 600, _transmissionRetryWaitMicros := 250,
    _microsSinceLastDataCheck := 0,
    chip := blankChip, pins := fun _ => false, boardSS := 10, now := 0, air := [], trace := [] }

/-- The bench with one pipe-1 packet whose declared length is 40. -/
def benchOversized : State :=
  { bench with chip := { blankChip with rxFifo := [{ pipe := 1, width := 40, payload := List.replicate 40 171 }] } }

/-- The bench with a peer that never acknowledges: after the first quiet poll the
transceiver raises MAX_RT. -/
def benchMaxRetries : State :=
  { bench with air := [id, id, id, (fun c => { c with irq := c.irq ||| _BV MAX_RT })] }

/-- The bench with a peer that acknowledges: after the first quiet poll the transceiver
raises TX_DS and drops the sent packet from the TX FIFO. -/
def benchDelivered : State :=
  { bench with air := [id, id, id,
      (fun c => { c with irq := c.irq ||| _BV TX_DS, txFifo := c.txFifo.tail })] }

/-- A driver whose enable and select lines are the same pin (10), at counter value 1000500,
last real check at 1000000, with a 5-byte pipe-1 packet waiting. -/
def benchShared : State :=
  { bench with _cePin := 10, now := 1000500, _microsSinceLastDataCheck := 1000000,
               chip := { blankChip with rxFifo := [{ pipe := 1, width := 5, payload := [1, 2, 3, 4, 5] }] } }

/-- The shared-pin bench at counter value 1001000. -/
def benchSharedLate : State :=
  { benchShared with now := 1001000 }

/-- The bench with one pipe-0 packet whose declared length is 40. -/
def benchAckOversized : State :=
  { bench with chip := { blankChip with rxFifo := [{ pipe := 0, width := 40, payload := [] }] } }

/-- The bench with one pipe-0 packet whose declared length is 0. -/
def benchAckEmpty : State :=
  { bench with chip := { blankChip with rxFifo := [{ pipe := 0, width := 0, payload := [] }] } }

/-- The bench in Listening mode: CONFIG holds PWR_UP, PRIM_RX and EN_CRC and the enable line is
high. -/
def benchListening : State :=
  { bench with chip := { blankChip with regs := fun _ => [0x0B] }, pins := fun _ => true }

/-- The bench with a full TX FIFO and a peer that never acknowledges: the first attempt of the
drain loop ends in MAX_RT. -/
def benchTxFull : State :=
  { bench with
      chip := { blankChip with txFifo := List.replicate 3 { command := W_TX_PAYLOAD, payload := [7] } },
      air := [id, id, (fun c => { c with irq := c.irq ||| _BV MAX_RT })] }

/-! ## Bus plumbing -/

theorem u8_lt (n : Nat) : u8 n < 256 := Nat.mod_lt _ (by decide)

theorem u8_of_lt {n : Nat} (h : n < 256) : u8 n = n := Nat.mod_eq_of_lt h

theorem spiTransfer_fst (s : State) (t : SpiTransferType) (command : Nat) (data : List Nat) (n : Nat) :
    (spiTransfer s t command data n).1 =
      { s with pins := Function.update (Function.update s.pins s._csnPin false) s._csnPin true,
               chip := (s.chip.transfer command (Chip.clock data n)).1,
               trace := s.trace ++ [Event.digitalWrite s._csnPin false,
                                    Event.transfer command (Chip.clock data n),
                                    Event.digitalWrite s._csnPin true] } := by
  simp [spiTransfer, digitalWrite]

theorem lengthQuery_snd (s : State) :
    (spiTransfer s SpiTransferType.READ_OPERATION R_RX_PL_WID [0] 1).2.headD 0 = u8 s.chip.plWidth := by
  simp [spiTransfer, digitalWrite, Chip.transfer, Chip.clock]

theorem writeCommand_facts : ∀ r, r < 32 →
    W_REGISTER ||| (REGISTER_MASK &&& r) ≠ R_RX_PL_WID
    ∧ W_REGISTER ||| (REGISTER_MASK &&& r) ≠ R_RX_PAYLOAD
    ∧ W_REGISTER ||| (REGISTER_MASK &&& r) ≠ FLUSH_TX
    ∧ W_REGISTER ||| (REGISTER_MASK &&& r) ≠ FLUSH_RX
    ∧ W_REGISTER ||| (REGISTER_MASK &&& r) ≠ W_TX_PAYLOAD
    ∧ W_REGISTER ||| (REGISTER_MASK &&& r) ≠ W_TX_PAYLOAD_NO_ACK
    ∧ (W_REGISTER ||| (REGISTER_MASK &&& r)) &&& 0xF8 ≠ W_ACK_PAYLOAD
    ∧ (W_REGISTER ||| (REGISTER_MASK &&& r)) &&& 0xE0 ≠ R_REGISTER
    ∧ (W_REGISTER ||| (REGISTER_MASK &&& r)) &&& 0xE0 = W_REGISTER
    ∧ (W_REGISTER ||| (REGISTER_MASK &&& r)) &&& REGISTER_MASK = r := by
  decide

theorem transfer_writeCommand (c : Chip) (r : Nat) (sent : List Nat) (h : r < 32) :
    c.transfer (W_REGISTER ||| (REGISTER_MASK &&& r)) sent
      = (c.writeReg r sent, Chip.clock [] sent.length) := by
  obtain ⟨h1, h2, h3, h4, h5, h6, h7, h8, h9, h10⟩ := writeCommand_facts r h
  unfold Chip.transfer
  have h11 : W_REGISTER ≠ R_REGISTER := by decide
  simp only [h1, h2, h3, h4, h5, h6, h7, h9, h10, h11, if_false, if_true, false_or]

theorem writeRegisterN_eq (s : State) (r : Nat) (data : List Nat) (n : Nat) (h : r < 32) :
    writeRegisterN s r data n =
      { s with pins := Function.update (Function.update s.pins s._csnPin false) s._csnPin true,
               chip := s.chip.writeReg r (Chip.clock data n),
               trace := s.trace ++ [Event.digitalWrite s._csnPin false,
                                    Event.transfer (W_REGISTER ||| (REGISTER_MASK &&& r)) (Chip.clock data n),
                                    Event.digitalWrite s._csnPin true] } := by
  unfold writeRegisterN
  rw [spiTransfer_fst, transfer_writeCommand _ _ _ h]

theorem writeRegister_eq (s : State) (r v : Nat) (h : r < 32) :
    writeRegister s r v =
      { s with pins := Function.update (Function.update s.pins s._csnPin false) s._csnPin true,
               chip := s.chip.writeReg r [u8 v],
               trace := s.trace ++ [Event.digitalWrite s._csnPin false,
                                    Event.transfer (W_REGISTER ||| (REGISTER_MASK &&& r)) [u8 v],
                                    Event.digitalWrite s._csnPin true] } := by
  unfold writeRegister
  rw [writeRegisterN_eq _ _ _ _ h]
  rfl

theorem readRegister_chip (s : State) (r : Nat) (h : r < 32) : (readRegister s r).1.chip = s.chip := by
  have hf : ∀ r, r < 32 →
      R_REGISTER ||| (REGISTER_MASK &&& r) ≠ R_RX_PL_WID
      ∧ R_REGISTER ||| (REGISTER_MASK &&& r) ≠ R_RX_PAYLOAD
      ∧ R_REGISTER ||| (REGISTER_MASK &&& r) ≠ FLUSH_TX
      ∧ R_REGISTER ||| (REGISTER_MASK &&& r) ≠ FLUSH_RX
      ∧ R_REGISTER ||| (REGISTER_MASK &&& r) ≠ W_TX_PAYLOAD
      ∧ R_REGISTER ||| (REGISTER_MASK &&& r) ≠ W_TX_PAYLOAD_NO_ACK
      ∧ (R_REGISTER ||| (REGISTER_MASK &&& r)) &&& 0xF8 ≠ W_ACK_PAYLOAD
      ∧ (R_REGISTER ||| (REGISTER_MASK &&& r)) &&& 0xE0 = R_REGISTER := by decide
  obtain ⟨h1, h2, h3, h4, h5, h6, h7, h8⟩ := hf r h
  unfold readRegister readRegisterN
  simp only [spiTransfer_fst, Chip.transfer, h1, h2, h3, h4, h5, h6, h7, h8, if_false, if_true,
    false_or]

theorem readRegister_fst (s : State) (r : Nat) (h : r < 32) :
    (readRegister s r).1 =
      { s with pins := Function.update (Function.update s.pins s._csnPin false) s._csnPin true,
               trace := s.trace ++ [Event.digitalWrite s._csnPin false,
                                    Event.transfer (R_REGISTER ||| (REGISTER_MASK &&& r)) [0],
                                    Event.digitalWrite s._csnPin true] } := by
  have hc := readRegister_chip s r h
  unfold readRegister readRegisterN at hc ⊢
  rw [spiTransfer_fst] at hc ⊢
  simp only at hc ⊢
  rw [hc]
  rfl

theorem readRegister_fifoStatus (s : State) :
    (readRegister s FIFO_STATUS).2 = u8 s.chip.fifoStatus := by
  simp +decide [readRegister, readRegisterN, spiTransfer, digitalWrite, Chip.transfer, Chip.clock,
    Chip.readReg, FIFO_STATUS, R_REGISTER, REGISTER_MASK, R_RX_PL_WID, R_RX_PAYLOAD, FLUSH_TX,
    FLUSH_RX, W_TX_PAYLOAD, W_TX_PAYLOAD_NO_ACK, W_ACK_PAYLOAD, STATUS]

theorem readRegister_CONFIG_snd (s : State) :
    (readRegister s CONFIG).2 = u8 ((s.chip.regs CONFIG).headD 0) := by
  simp +decide [readRegister, readRegisterN, spiTransfer, digitalWrite, Chip.transfer, Chip.clock,
    Chip.readReg, FIFO_STATUS, R_REGISTER, REGISTER_MASK, R_RX_PL_WID, R_RX_PAYLOAD, FLUSH_TX,
    FLUSH_RX, W_TX_PAYLOAD, W_TX_PAYLOAD_NO_ACK, W_ACK_PAYLOAD, STATUS, CONFIG]
  cases s.chip.regs 0 <;> simp

theorem readRegister_CONFIG_fst (s : State) :
    (readRegister s CONFIG).1 =
      { s with pins := Function.update (Function.update s.pins s._csnPin false) s._csnPin true,
               trace := s.trace ++ [Event.digitalWrite s._csnPin false,
                                    Event.transfer (R_REGISTER ||| (REGISTER_MASK &&& CONFIG)) [0],
                                    Event.digitalWrite s._csnPin true] } := by
  simp +decide [readRegister, readRegisterN, spiTransfer_fst, Chip.transfer, Chip.clock,
    FIFO_STATUS, R_REGISTER, REGISTER_MASK, R_RX_PL_WID, R_RX_PAYLOAD, FLUSH_TX,
    FLUSH_RX, W_TX_PAYLOAD, W_TX_PAYLOAD_NO_ACK, W_ACK_PAYLOAD, STATUS, CONFIG]

theorem readRegister_CONFIG_lt (s : State) : (readRegister s CONFIG).2 < 256 := by
  rw [readRegister_CONFIG_snd]; exact u8_lt _

theorem writeRegister_CONFIG (s : State) (v : Nat) :
    writeRegister s CONFIG v =
      { s with pins := Function.update (Function.update s.pins s._csnPin false) s._csnPin true,
               chip := { s.chip with regs := Function.update s.chip.regs CONFIG [u8 v] },
               trace := s.trace ++ [Event.digitalWrite s._csnPin false,
                                    Event.transfer (W_REGISTER ||| (REGISTER_MASK &&& CONFIG)) [u8 v],
                                    Event.digitalWrite s._csnPin true] } := by
  simp +decide [writeRegister, writeRegisterN, spiTransfer_fst, Chip.transfer, Chip.clock, Chip.writeReg,
    FIFO_STATUS, R_REGISTER, W_REGISTER, REGISTER_MASK, R_RX_PL_WID, R_RX_PAYLOAD, FLUSH_TX,
    FLUSH_RX, W_TX_PAYLOAD, W_TX_PAYLOAD_NO_ACK, W_ACK_PAYLOAD, STATUS, CONFIG,
    (by decide : (32 &&& 31 : Nat) = 0)]

theorem flushTx_fst (s : State) :
    (spiTransfer s SpiTransferType.WRITE_OPERATION FLUSH_TX [] 0).1 =
      { s with pins := Function.update (Function.update s.pins s._csnPin false) s._csnPin true,
               chip := { s.chip with txFifo := [] },
               trace := s.trace ++ [Event.digitalWrite s._csnPin false,
                                    Event.transfer FLUSH_TX [],
                                    Event.digitalWrite s._csnPin true] } := by
  simp +decide [spiTransfer_fst, Chip.transfer, Chip.clock, FLUSH_TX, R_RX_PL_WID, R_RX_PAYLOAD]

theorem flush_regs (s : State) (command : Nat) (h : command = FLUSH_RX ∨ command = FLUSH_TX) :
    (spiTransfer s SpiTransferType.WRITE_OPERATION command [] 0).1.chip.regs = s.chip.regs := by
  rcases h with rfl | rfl <;> simp +decide [spiTransfer_fst, Chip.transfer, FLUSH_RX, FLUSH_TX,
    R_RX_PL_WID, R_RX_PAYLOAD]

theorem delayMicroseconds_regs (s : State) (us : Nat) :
    (delayMicroseconds s us).chip.regs = s.chip.regs := by
  unfold delayMicroseconds
  cases s.air <;> rfl

theorem writeReg_regs_self (c : Chip) (r : Nat) (data : List Nat) (h1 : r ≠ STATUS)
    (h2 : r ≠ FIFO_STATUS) : (c.writeReg r data).regs r = data := by
  simp [Chip.writeReg, h1, h2]

theorem writeReg_regs_of_ne (c : Chip) (r a : Nat) (data : List Nat) (h : a ≠ r) :
    (c.writeReg r data).regs a = c.regs a := by
  unfold Chip.writeReg
  split_ifs <;> simp [Function.update_noteq h]

/-! ## Bits of STATUS, FIFO_STATUS and CONFIG -/

theorem truthy_and_BV (x b : Nat) : truthy (x &&& _BV b) = x.testBit b := by
  unfold truthy _BV
  rw [Nat.one_shiftLeft, Nat.and_two_pow]
  cases x.testBit b <;> simp

theorem truthy_eq_false_iff (n : Nat) : truthy n = false ↔ n = 0 := by
  simp [truthy]

theorem and_BV_ne_zero (x b : Nat) : x &&& _BV b ≠ 0 ↔ x.testBit b = true := by
  rw [← truthy_and_BV]
  simp [truthy]

theorem testBit_BV_self (b : Nat) : (_BV b).testBit b = true := by
  unfold _BV
  rw [Nat.one_shiftLeft]
  exact Nat.testBit_two_pow_self

theorem testBit_ite_one (p : Prop) [Decidable p] (b : Nat) (h : 0 < b) :
    (if p then 1 else 0 : Nat).testBit b = false := by
  split
  · exact Nat.testBit_lt_two_pow (Nat.one_lt_two_pow (by omega))
  · exact Nat.zero_testBit b

theorem testBit_240 (b : Nat) (h4 : 4 ≤ b) (h7 : b < 8) : Nat.testBit 240 b = true := by
  have hb : b = 4 ∨ b = 5 ∨ b = 6 ∨ b = 7 := by omega
  rcases hb with rfl | rfl | rfl | rfl <;> decide

theorem testBit_7 (b : Nat) (h : 3 ≤ b) : Nat.testBit 7 b = false :=
  Nat.testBit_lt_two_pow (Nat.lt_of_lt_of_le (by decide) (Nat.pow_le_pow_right (by decide) h))

theorem testBit_112 (b : Nat) (h4 : 4 ≤ b) (h7 : b < 7) : Nat.testBit 112 b = true := by
  have hb : b = 4 ∨ b = 5 ∨ b = 6 := by omega
  rcases hb with rfl | rfl | rfl <;> decide

theorem status_lt (c : Chip) : c.status < 256 := by
  unfold Chip.status
  have h1 : c.irq &&& 0xF0 < 2 ^ 8 := Nat.and_lt_two_pow _ (by decide)
  have h2 : ((match c.rxFifo with
            | [] => 7
            | p :: _ => p.pipe) &&& 7) <<< 1 < 2 ^ 8 := by
    have : (match c.rxFifo with
            | [] => 7
            | p :: _ => p.pipe) &&& 7 < 2 ^ 3 := Nat.and_lt_two_pow _ (by decide)
    rw [Nat.shiftLeft_eq]
    omega
  have h3 : (if 3 ≤ c.txFifo.length then 1 else 0) < 2 ^ 8 := by split <;> decide
  exact Nat.or_lt_two_pow (Nat.or_lt_two_pow h1 h2) h3

theorem status_testBit_flag (c : Chip) (b : Nat) (h4 : 4 ≤ b) (h7 : b < 8) :
    c.status.testBit b = c.irq.testBit b := by
  unfold Chip.status
  simp only [Nat.testBit_or, Nat.testBit_and, Nat.testBit_shiftLeft,
    testBit_ite_one _ b (by omega), testBit_240 b h4 h7, testBit_7 (b - 1) (by omega)]
  simp

theorem readRegister_STATUS_snd (s : State) : (readRegister s STATUS).2 = s.chip.status := by
  have h := status_lt s.chip
  simp +decide [readRegister, readRegisterN, spiTransfer, digitalWrite, Chip.transfer, Chip.clock,
    Chip.readReg, FIFO_STATUS, R_REGISTER, REGISTER_MASK, R_RX_PL_WID, R_RX_PAYLOAD, FLUSH_TX,
    FLUSH_RX, W_TX_PAYLOAD, W_TX_PAYLOAD_NO_ACK, W_ACK_PAYLOAD, STATUS, u8]
  omega

theorem readRegister_STATUS_fst (s : State) :
    (readRegister s STATUS).1 =
      { s with pins := Function.update (Function.update s.pins s._csnPin false) s._csnPin true,
               trace := s.trace ++ [Event.digitalWrite s._csnPin false,
                                    Event.transfer (R_REGISTER ||| (REGISTER_MASK &&& STATUS)) [0],
                                    Event.digitalWrite s._csnPin true] } := by
  simp +decide [readRegister, readRegisterN, spiTransfer_fst, Chip.transfer, Chip.clock,
    FIFO_STATUS, R_REGISTER, REGISTER_MASK, R_RX_PL_WID, R_RX_PAYLOAD, FLUSH_TX,
    FLUSH_RX, W_TX_PAYLOAD, W_TX_PAYLOAD_NO_ACK, W_ACK_PAYLOAD, STATUS]

theorem writeRegister_STATUS (s : State) (v : Nat) :
    writeRegister s STATUS v =
      { s with pins := Function.update (Function.update s.pins s._csnPin false) s._csnPin true,
               chip := { s.chip with irq := s.chip.irq &&& complement (u8 v &&& 0x70) },
               trace := s.trace ++ [Event.digitalWrite s._csnPin false,
                                    Event.transfer (W_REGISTER ||| (REGISTER_MASK &&& STATUS)) [u8 v],
                                    Event.digitalWrite s._csnPin true] } := by
  simp +decide [writeRegister, writeRegisterN, spiTransfer_fst, Chip.transfer, Chip.clock, Chip.writeReg,
    FIFO_STATUS, R_REGISTER, W_REGISTER, REGISTER_MASK, R_RX_PL_WID, R_RX_PAYLOAD, FLUSH_TX,
    FLUSH_RX, W_TX_PAYLOAD, W_TX_PAYLOAD_NO_ACK, W_ACK_PAYLOAD, STATUS]

theorem clearFlags_testBit (irq v b : Nat) (h4 : 4 ≤ b) (h7 : b < 7) :
    (irq &&& complement (u8 v &&& 0x70)).testBit b = (irq.testBit b && !v.testBit b) := by
  unfold complement u8
  have e1 : (65535 : Nat) = 2 ^ 16 - 1 := by decide
  have e2 : (256 : Nat) = 2 ^ 8 := by decide
  have hb8 : b < 8 := by omega
  have hb16 : b < 16 := by omega
  simp only [Nat.testBit_and, Nat.testBit_xor, e1, e2, Nat.testBit_two_pow_sub_one,
    Nat.testBit_mod_two_pow, testBit_112 b h4 h7, hb8, hb16]
  simp

theorem status_flag_after_write (s : State) (v b : Nat) (h4 : 4 ≤ b) (h7 : b < 7) :
    truthy ((readRegister (writeRegister s STATUS v) STATUS).2 &&& _BV b)
      = (s.chip.irq.testBit b && !v.testBit b) := by
  rw [readRegister_STATUS_snd, truthy_and_BV, status_testBit_flag _ b h4 (by omega),
    writeRegister_STATUS]
  exact clearFlags_testBit _ _ _ h4 h7

theorem fifoStatus_rxEmpty (c : Chip) :
    truthy (u8 c.fifoStatus &&& _BV RX_EMPTY) = true ↔ c.rxFifo = [] := by
  unfold Chip.fifoStatus
  split_ifs <;> simp_all +decide

theorem fifoStatus_txEmpty (c : Chip) :
    truthy (u8 c.fifoStatus &&& _BV TX_EMPTY) = true ↔ c.txFifo = [] := by
  unfold Chip.fifoStatus
  split_ifs <;> simp_all +decide

theorem testBit_clear (c b i : Nat) (hb : b < 16) (hc : c < 256) :
    (c &&& complement (_BV b)).testBit i = (c.testBit i && decide (i ≠ b)) := by
  unfold complement _BV
  have e1 : (65535 : Nat) = 2 ^ 16 - 1 := by decide
  rw [Nat.one_shiftLeft, Nat.testBit_and, Nat.testBit_xor, e1, Nat.testBit_two_pow_sub_one,
    Nat.testBit_two_pow]
  by_cases hi : i < 16
  · by_cases hib : i = b
    · subst hib; simp [hi]
    · have : ¬ b = i := fun h => hib h.symm
      simp [hi, hib, this]
  · have : c.testBit i = false :=
      Nat.testBit_lt_two_pow (Nat.lt_of_lt_of_le hc
        (by rw [show (256 : Nat) = 2 ^ 8 by decide]; exact Nat.pow_le_pow_right (by decide) (by omega)))
    simp [this]

theorem clear_eq_self_iff (c b : Nat) (hb : b < 16) (hc : c < 256) :
    c &&& complement (_BV b) = c ↔ c.testBit b = false := by
  constructor
  · intro h
    have := testBit_clear c b b hb hc
    rw [h] at this
    simpa using this
  · intro h
    apply Nat.eq_of_testBit_eq
    intro i
    rw [testBit_clear c b i hb hc]
    by_cases hib : i = b
    · subst hib; simp [h]
    · simp [hib]

/-! ## The fields of the driver object are left alone by the bus primitives -/

@[simp] theorem fields_digitalWrite (s : State) (pin : Nat) (level : Bool) :
    fields (digitalWrite s pin level) = fields s := rfl

@[simp] theorem fields_delayMicroseconds (s : State) (us : Nat) :
    fields (delayMicroseconds s us) = fields s := rfl

@[simp] theorem fields_spiTransfer (s : State) (t : SpiTransferType) (command : Nat)
    (data : List Nat) (n : Nat) : fields (spiTransfer s t command data n).1 = fields s := rfl

@[simp] theorem fields_readRegister (s : State) (r : Nat) :
    fields (readRegister s r).1 = fields s := rfl

@[simp] theorem fields_writeRegister (s : State) (r v : Nat) :
    fields (writeRegister s r v) = fields s := rfl

@[simp] theorem fields_getPipeOfFirstRxFifoPacket (s : State) :
    fields (getPipeOfFirstRxFifoPacket s).1 = fields s := rfl

@[simp] theorem fields_getRxFifoPacketLength (s : State) :
    fields (getRxFifoPacketLength s).1 = fields s := by
  unfold getRxFifoPacketLength
  dsimp only
  split <;> rfl

theorem fields_lengthOrZero (c : Prop) [Decidable c] (x : State) :
    fields (if c then getRxFifoPacketLength x else (x, 0)).1 = fields x := by
  split <;> simp

theorem fields_hasData (s s0 : State) (u : Nat) (h : hasDataGate s u = some s0) :
    fields (hasData s u).1 = fields s0 := by
  unfold hasData
  rw [h]
  dsimp only
  rw [fields_lengthOrZero, fields_getPipeOfFirstRxFifoPacket]
  split_ifs <;> simp

/-! ## The length check of the receive path -/

theorem getRxFifoPacketLength_le (s : State) : (getRxFifoPacketLength s).2 ≤ 32 := by
  unfold getRxFifoPacketLength
  dsimp only
  split
  · exact Nat.zero_le _
  · omega

theorem lengthOrZero_le (c : Prop) [Decidable c] (x y : State) :
    (if c then getRxFifoPacketLength x else (y, 0)).2 ≤ 32 := by
  split
  · exact getRxFifoPacketLength_le _
  · exact Nat.zero_le _

theorem hasAckData_le (s : State) : (hasAckData s).2 ≤ 32 := by
  unfold hasAckData
  dsimp only
  split
  · exact getRxFifoPacketLength_le _
  · exact Nat.zero_le _

theorem hasData_le (s : State) (u : Nat) : (hasData s u).2 ≤ 32 := by
  unfold hasData
  split
  · exact Nat.zero_le _
  · exact lengthOrZero_le _ _ _

theorem getRxFifoPacketLength_snd (s : State) :
    (getRxFifoPacketLength s).2 = (if 32 < u8 s.chip.plWidth then 0 else u8 s.chip.plWidth) := by
  unfold getRxFifoPacketLength
  simp only [lengthQuery_snd]
  split <;> simp_all

theorem getRxFifoPacketLength_chip (s : State) :
    (getRxFifoPacketLength s).1.chip
      = (if 32 < u8 s.chip.plWidth then { s.chip with rxFifo := [] } else s.chip) := by
  unfold getRxFifoPacketLength
  simp only [lengthQuery_snd]
  split
  · simp +decide [spiTransfer_fst, Chip.transfer, FLUSH_RX, R_RX_PL_WID, R_RX_PAYLOAD, FLUSH_TX]
  · simp [spiTransfer_fst, Chip.transfer]

/-- C1: whatever the transceiver answers to the payload-length query, `getRxFifoPacketLength`
returns 0 when the answer exceeds 32 and the answer itself otherwise; it issues the query and,
only when the answer exceeds 32, a FLUSH_RX after it; the RX FIFO is empty afterwards in the
first case and untouched in the second, so that a following FIFO_STATUS read shows RX_EMPTY
exactly when the answer exceeded 32 or the FIFO was empty already; and neither `hasData` nor
`hasAckData` ever returns more than 32. -/
theorem getRxFifoPacketLength_checks_length (s : State) (usingInterrupts : Nat) :
    (getRxFifoPacketLength s).2 = (if 32 < u8 s.chip.plWidth then 0 else u8 s.chip.plWidth)
    ∧ (getRxFifoPacketLength s).1.chip.rxFifo = (if 32 < u8 s.chip.plWidth then [] else s.chip.rxFifo)
    ∧ (getRxFifoPacketLength s).1.trace =
        s.trace ++ [Event.digitalWrite s._csnPin false, Event.transfer R_RX_PL_WID [0],
                    Event.digitalWrite s._csnPin true]
          ++ (if 32 < u8 s.chip.plWidth then
                [Event.digitalWrite s._csnPin false, Event.transfer FLUSH_RX [],
                 Event.digitalWrite s._csnPin true]
              else [])
    ∧ (truthy ((readRegister (getRxFifoPacketLength s).1 FIFO_STATUS).2 &&& _BV RX_EMPTY) = true
        ↔ (32 < u8 s.chip.plWidth ∨ s.chip.rxFifo = []))
    ∧ (hasData s usingInterrupts).2 ≤ 32
    ∧ (hasAckData s).2 ≤ 32 := by
  refine ⟨?_, ?_, ?_, ?_, hasData_le s usingInterrupts, hasAckData_le s⟩
  · unfold getRxFifoPacketLength
    simp only [lengthQuery_snd]
    split <;> simp_all
  · unfold getRxFifoPacketLength
    simp only [lengthQuery_snd]
    split
    · simp [spiTransfer_fst, Chip.transfer, FLUSH_RX, R_RX_PL_WID, R_RX_PAYLOAD, FLUSH_TX]
    · simp [spiTransfer_fst, Chip.transfer]
  · unfold getRxFifoPacketLength
    simp only [lengthQuery_snd]
    split
    · simp [spiTransfer_fst, Chip.clock]
    · simp [spiTransfer_fst, Chip.clock]
  · rw [readRegister_fifoStatus, fifoStatus_rxEmpty]
    unfold getRxFifoPacketLength
    simp only [lengthQuery_snd]
    split
    · simp [spiTransfer_fst, Chip.transfer, FLUSH_RX, R_RX_PL_WID, R_RX_PAYLOAD, FLUSH_TX, *]
    · simp [spiTransfer_fst, Chip.transfer, *]

/-- C2: on a transceiver that declares a length of 40 for the head packet, `readData` called
with a 32-byte buffer clocks 40 payload bytes into it and issues no FLUSH_RX, whereas
`hasData` on the same state reports 0 and flushes. -/
theorem readData_trusts_oversized_length :
    (readData benchOversized (List.replicate 32 0)).2.length = 40
    ∧ Event.transfer R_RX_PAYLOAD (List.replicate 40 0)
        ∈ (readData benchOversized (List.replicate 32 0)).1.trace
    ∧ Event.transfer FLUSH_RX [] ∉ (readData benchOversized (List.replicate 32 0)).1.trace
    ∧ (hasData benchOversized 1).2 = 0
    ∧ Event.transfer FLUSH_RX [] ∈ (hasData benchOversized 1).1.trace := by
  decide

/-! ## The wait loop of `send` -/

theorem poll_snd (s : State) : (poll s).2 = (poll s).1.chip.status := by
  unfold poll
  rw [readRegister_STATUS_snd, readRegister_STATUS_fst]

theorem sendWait_afterPolls (k : Nat) : ∀ (w : State) (fuel : Nat),
    (∀ i, i < k → truthy ((poll (afterPolls i w)).2 &&& _BV TX_DS) = false
                  ∧ truthy ((poll (afterPolls i w)).2 &&& _BV MAX_RT) = false) →
    sendWait (k + fuel) w = sendWait fuel (afterPolls k w) := by
  induction k with
  | zero => intro w fuel _; simp [afterPolls]
  | succ k ih =>
    intro w fuel h
    have h0 := h 0 (by omega)
    simp only [afterPolls] at h0
    rw [show k + 1 + fuel = (k + fuel) + 1 by omega, sendWait]
    simp only [h0.1, h0.2]
    simp only [Bool.false_eq_true, if_false]
    rw [ih (poll w).1 fuel (fun i hi => h (i + 1) (by omega))]
    rfl

/-- C3: let the preparation of `send` end in state `s0`, let the first `k` polls of the wait loop
show neither TX_DS nor MAX_RT and let poll `k` show at least one of them.  Then, with more than
`k` polls of fuel, `send` returns: 1 when that poll shows TX_DS, 0 when it shows MAX_RT alone.
After that poll it issues, in the failure case, a FLUSH_TX and then a STATUS write of the byte
read with MAX_RT set, and in the success case nothing but a STATUS write of the byte read with
TX_DS set; the TX FIFO is empty after a failure (a following FIFO_STATUS read shows TX_EMPTY)
and is what it was at the poll after a success; a following STATUS read shows both TX_DS and
MAX_RT clear. -/
theorem send_reports_outcome (prepFuel waitFuel : Nat) (s s0 : State) (toRadioId : Nat)
    (data : List Nat) (length : Nat) (sendType : SendType) (k : Nat)
    (hprep : prepForTransmission prepFuel s toRadioId sendType = some s0)
    (hquiet : ∀ i, i < k →
      truthy ((pollAt i s0 data length sendType).2 &&& _BV TX_DS) = false
      ∧ truthy ((pollAt i s0 data length sendType).2 &&& _BV MAX_RT) = false)
    (hflag : truthy ((pollAt k s0 data length sendType).2 &&& _BV TX_DS) = true
      ∨ truthy ((pollAt k s0 data length sendType).2 &&& _BV MAX_RT) = true)
    (hfuel : k < waitFuel) :
    ∃ s1, send prepFuel waitFuel s toRadioId data length sendType
        = some (s1, if truthy ((pollAt k s0 data length sendType).2 &&& _BV TX_DS) then 1 else 0)
      ∧ s1.trace = (pollAt k s0 data length sendType).1.trace
          ++ (if truthy ((pollAt k s0 data length sendType).2 &&& _BV TX_DS) then []
              else [Event.digitalWrite s1._csnPin false, Event.transfer FLUSH_TX [],
                    Event.digitalWrite s1._csnPin true])
          ++ [Event.digitalWrite s1._csnPin false,
              Event.transfer (W_REGISTER ||| (REGISTER_MASK &&& STATUS))
                [u8 ((pollAt k s0 data length sendType).2 |||
                  (if truthy ((pollAt k s0 data length sendType).2 &&& _BV TX_DS) then _BV TX_DS
                   else _BV MAX_RT))],
              Event.digitalWrite s1._csnPin true]
      ∧ s1.chip.txFifo = (if truthy ((pollAt k s0 data length sendType).2 &&& _BV TX_DS)
                          then (pollAt k s0 data length sendType).1.chip.txFifo else [])
      ∧ (truthy ((readRegister s1 FIFO_STATUS).2 &&& _BV TX_EMPTY) = true
          ↔ (truthy ((pollAt k s0 data length sendType).2 &&& _BV TX_DS) = false
              ∨ (pollAt k s0 data length sendType).1.chip.txFifo = []))
      ∧ truthy ((readRegister s1 STATUS).2 &&& _BV TX_DS) = false
      ∧ truthy ((readRegister s1 STATUS).2 &&& _BV MAX_RT) = false := by
  obtain ⟨fuel, rfl⟩ : ∃ fuel, waitFuel = k + (fuel + 1) := ⟨waitFuel - k - 1, by omega⟩
  have hsend : send prepFuel (k + (fuel + 1)) s toRadioId data length sendType
      = sendWait (fuel + 1) (afterPolls k (sendStart s0 data length sendType)) := by
    unfold send
    rw [hprep]
    exact sendWait_afterPolls k _ _ hquiet
  rw [hsend, sendWait]
  unfold pollAt at hflag ⊢
  generalize afterPolls k (sendStart s0 data length sendType) = w at hflag ⊢
  have hp := poll_snd w
  generalize poll w = p at hflag hp ⊢
  obtain ⟨q, v⟩ := p
  simp only at hflag hp ⊢
  have h5 : q.chip.irq.testBit TX_DS = v.testBit TX_DS := by
    rw [hp, status_testBit_flag _ TX_DS (by decide) (by decide)]
  have h4 : q.chip.irq.testBit MAX_RT = v.testBit MAX_RT := by
    rw [hp, status_testBit_flag _ MAX_RT (by decide) (by decide)]
  by_cases hok : truthy (v &&& _BV TX_DS) = true
  · refine ⟨writeRegister q STATUS (v ||| _BV TX_DS), by simp [hok], ?_, ?_, ?_, ?_, ?_⟩
    · simp [hok, writeRegister_STATUS]
    · simp [hok, writeRegister_STATUS]
    · rw [readRegister_fifoStatus, fifoStatus_txEmpty]
      simp [hok, writeRegister_STATUS]
    · rw [status_flag_after_write _ _ _ (by decide) (by decide)]
      simp [Nat.testBit_or, testBit_BV_self]
    · rw [status_flag_after_write _ _ _ (by decide) (by decide), h4, Nat.testBit_or]
      cases v.testBit MAX_RT <;> simp
  · have hfail : truthy (v &&& _BV MAX_RT) = true := by
      rcases hflag with h | h
      · exact absurd h hok
      · exact h
    simp only [Bool.not_eq_true] at hok
    refine ⟨writeRegister (spiTransfer q SpiTransferType.WRITE_OPERATION FLUSH_TX [] 0).1 STATUS
        (v ||| _BV MAX_RT), by simp [hok, hfail], ?_, ?_, ?_, ?_, ?_⟩
    · simp [hok, writeRegister_STATUS, flushTx_fst]
    · simp [hok, writeRegister_STATUS, flushTx_fst]
    · rw [readRegister_fifoStatus, fifoStatus_txEmpty]
      simp [hok, writeRegister_STATUS, flushTx_fst]
    · rw [status_flag_after_write _ _ _ (by decide) (by decide)]
      rw [truthy_and_BV] at hok
      simp [flushTx_fst, h5, hok]
    · rw [status_flag_after_write _ _ _ (by decide) (by decide)]
      simp [Nat.testBit_or, testBit_BV_self]

/-- Witness for C3: the theorem applied to a transmission that runs into max retries at the second
poll, and to one that is acknowledged at the second poll. -/
theorem send_reports_outcome_witness :
    (∃ s1, send 0 2 benchMaxRetries 3 [1, 2] 2 SendType.REQUIRE_ACK = some (s1, 0)
      ∧ s1.chip.txFifo = []
      ∧ truthy ((readRegister s1 STATUS).2 &&& _BV MAX_RT) = false)
    ∧ (∃ s1, send 0 2 benchDelivered 3 [1, 2] 2 SendType.REQUIRE_ACK = some (s1, 1)
      ∧ truthy ((readRegister s1 STATUS).2 &&& _BV TX_DS) = false) := by
  constructor
  · obtain ⟨s1, h1, _, h3, _, _, h6⟩ :=
      send_reports_outcome 0 2 benchMaxRetries (prepared benchMaxRetries 3 SendType.REQUIRE_ACK)
        3 [1, 2] 2 SendType.REQUIRE_ACK 1 rfl (by decide) (by decide) (by decide)
    have e : truthy ((pollAt 1 (prepared benchMaxRetries 3 SendType.REQUIRE_ACK) [1, 2] 2
        SendType.REQUIRE_ACK).2 &&& _BV TX_DS) = false := by decide
    rw [e] at h1 h3
    exact ⟨s1, h1, h3, h6⟩
  · obtain ⟨s1, h1, _, _, _, h5, _⟩ :=
      send_reports_outcome 0 2 benchDelivered (prepared benchDelivered 3 SendType.REQUIRE_ACK)
        3 [1, 2] 2 SendType.REQUIRE_ACK 1 rfl (by decide) (by decide) (by decide)
    have e : truthy ((pollAt 1 (prepared benchDelivered 3 SendType.REQUIRE_ACK) [1, 2] 2
        SendType.REQUIRE_ACK).2 &&& _BV TX_DS) = true := by decide
    rw [e] at h1
    exact ⟨s1, h1, h5⟩

/-! ## The rate limit of `hasData` -/

theorem hasData_of_gate_none (s : State) (u : Nat) (h : hasDataGate s u = none) :
    hasData s u = (s, 0) := by
  unfold hasData
  rw [h]

/-- C4 as stated fails when the first call of the pair was itself rate-limited: with an
interval of 600 and the last real check at counter value 1000000, a call at 1000500 is
rate-limited (returns 0, no event), and the next call at 1000700, only 200 later, is not: it
goes to the transceiver and returns the length 5 of the waiting packet. -/
theorem hasData_rate_limit_counterexample :
    benchShared._cePin = benchShared._csnPin
    ∧ benchShared._allowedDataCheckIntervalMicros = 600
    ∧ micros benchShared = 1000500
    ∧ (hasData benchShared 0).2 = 0
    ∧ (hasData benchShared 0).1.trace = []
    ∧ micros { (hasData benchShared 0).1 with now := 1000700 } = 1000700
    ∧ 1000700 - 1000500 < benchShared._allowedDataCheckIntervalMicros
    ∧ (hasData { (hasData benchShared 0).1 with now := 1000700 } 0).2 = 5
    ∧ Event.transfer R_RX_PL_WID [0]
        ∈ (hasData { (hasData benchShared 0).1 with now := 1000700 } 0).1.trace := by
  decide

/-- C4, amended: with the enable and select lines on one pin and `usingInterrupts = 0`, let a
`hasData` call made at counter value `s.now` not be rate-limited.  Then the next call, made at
any counter value `t2` with `t2 - s.now` below `_allowedDataCheckIntervalMicros`, returns 0 and
leaves the whole state as it found it (no bus transfer, no pin write, no wait), whatever the
transceiver, the pins and the schedule have become in between. -/
theorem hasData_rate_limit (s : State) (c : Chip) (p : Nat → Bool) (t2 : Nat)
    (a : List (Chip → Chip)) (tr : List Event)
    (hpins : s._cePin = s._csnPin)
    (hfirst : (hasDataGate s 0).isSome = true)
    (hle : s.now ≤ t2) (hlt : t2 - s.now < s._allowedDataCheckIntervalMicros) :
    hasData { (hasData s 0).1 with chip := c, pins := p, now := t2, air := a, trace := tr } 0
      = ({ (hasData s 0).1 with chip := c, pins := p, now := t2, air := a, trace := tr }, 0) := by
  obtain ⟨s0, hs0⟩ := Option.isSome_iff_exists.mp hfirst
  have hf := fields_hasData s s0 0 hs0
  have hs0' : fields s0 = (s._cePin, s._csnPin, s._enableInterruptFlagsReset,
      s._allowedDataCheckIntervalMicros, s._transmissionRetryWaitMicros, u32 s.now) := by
    unfold hasDataGate at hs0
    simp only [hpins, true_and, if_true] at hs0
    split at hs0
    · simp at hs0
    · simp only [Option.some.injEq] at hs0
      subst hs0
      simp [fields, micros, hpins]
  rw [hs0'] at hf
  simp only [fields, Prod.mk.injEq] at hf
  obtain ⟨h1, h2, -, h4, -, h6⟩ := hf
  have hgate : hasDataGate
      { (hasData s 0).1 with chip := c, pins := p, now := t2, air := a, trace := tr } 0 = none := by
    unfold hasDataGate
    simp only [h1, h2, hpins, h4, h6, micros, u32, true_and, if_true]
    rw [if_pos]
    omega
  exact hasData_of_gate_none _ _ hgate

/-- Witness for C4: a first call at counter value 1001000 (last real check at 1000000), a
second one at 1001400 with a packet waiting. -/
theorem hasData_rate_limit_witness :
    benchSharedLate._cePin = benchSharedLate._csnPin
    ∧ (hasDataGate benchSharedLate 0).isSome = true
    ∧ benchSharedLate.now ≤ 1001400
    ∧ 1001400 - benchSharedLate.now < benchSharedLate._allowedDataCheckIntervalMicros
    ∧ (hasData { (hasData benchSharedLate 0).1 with
          chip := benchShared.chip, pins := fun _ => true, now := 1001400, air := [],
          trace := [] } 0).2
        = 0 :=
  ⟨by decide, by decide, by decide, by decide,
    congrArg Prod.snd
      (hasData_rate_limit benchSharedLate benchShared.chip (fun _ => true) 1001400 [] []
        (by decide) (by decide) (by decide) (by decide))⟩

/-! ## Flag inspection -/

theorem whatHappened_snd (s : State) :
    (whatHappened s).2 =
      (s.chip.status &&& _BV TX_DS, s.chip.status &&& _BV MAX_RT, s.chip.status &&& _BV RX_DR) := by
  unfold whatHappened
  simp only [readRegister_STATUS_snd]
  split <;> rfl

theorem whatHappened_fst (s : State) :
    (whatHappened s).1 =
      if s._enableInterruptFlagsReset ≠ 0 then
        writeRegister (readRegister s STATUS).1 STATUS
          (s.chip.status ||| _BV TX_DS ||| _BV MAX_RT ||| _BV RX_DR)
      else (readRegister s STATUS).1 := by
  unfold whatHappened
  simp only [readRegister_STATUS_snd]
  have : (readRegister s STATUS).1._enableInterruptFlagsReset = s._enableInterruptFlagsReset := rfl
  rw [this]
  split <;> rfl

set_option maxRecDepth 100000 in
set_option maxRecDepth 100000 in
theorem status_surjective (v : Fin 256) : ∃ c : Chip, c.status = v.val :=
  ⟨{ regs := fun _ => [], irq := v.val, rxFifo := [{ pipe := v.val >>> 1, width := 0, payload := [] }],
     txFifo := if v.val % 2 = 1 then List.replicate 3 { command := 0, payload := [] } else [],
     idleWidth := 0 }, by
    revert v
    decide⟩

/-- C5: `whatHappened` reports `tx_ok`, `tx_fail` and `rx_ready` as the STATUS byte masked with
TX_DS, MAX_RT and RX_DR, so each is nonzero exactly when its bit is set; every byte value is
the STATUS of some transceiver state.  With `_enableInterruptFlagsReset` nonzero it then writes
STATUS with the byte read and all three flag bits set, and an immediately following call
reports (0, 0, 0); with the toggle zero it issues nothing but the STATUS read, and an
immediately following call reports the same three values. -/
theorem whatHappened_reports (s : State) :
    (whatHappened s).2 =
        (s.chip.status &&& _BV TX_DS, s.chip.status &&& _BV MAX_RT, s.chip.status &&& _BV RX_DR)
    ∧ ((whatHappened s).2.1 ≠ 0 ↔ s.chip.status.testBit TX_DS = true)
    ∧ ((whatHappened s).2.2.1 ≠ 0 ↔ s.chip.status.testBit MAX_RT = true)
    ∧ ((whatHappened s).2.2.2 ≠ 0 ↔ s.chip.status.testBit RX_DR = true)
    ∧ (whatHappened s).1.trace =
        s.trace ++ [Event.digitalWrite s._csnPin false,
                    Event.transfer (R_REGISTER ||| (REGISTER_MASK &&& STATUS)) [0],
                    Event.digitalWrite s._csnPin true]
          ++ (if s._enableInterruptFlagsReset ≠ 0 then
                [Event.digitalWrite s._csnPin false,
                 Event.transfer (W_REGISTER ||| (REGISTER_MASK &&& STATUS))
                   [u8 (s.chip.status ||| _BV TX_DS ||| _BV MAX_RT ||| _BV RX_DR)],
                 Event.digitalWrite s._csnPin true]
              else [])
    ∧ (whatHappened (whatHappened s).1).2 =
        (if s._enableInterruptFlagsReset ≠ 0 then (0, 0, 0) else (whatHappened s).2)
    ∧ (∀ v : Fin 256, ∃ c : Chip, c.status = v.val) := by
  refine ⟨whatHappened_snd s, ?_, ?_, ?_, ?_, ?_, status_surjective⟩
  · rw [whatHappened_snd]; exact and_BV_ne_zero _ _
  · rw [whatHappened_snd]; exact and_BV_ne_zero _ _
  · rw [whatHappened_snd]; exact and_BV_ne_zero _ _
  · rw [whatHappened_fst]
    split
    · simp [writeRegister_STATUS, readRegister_STATUS_fst]
    · simp [readRegister_STATUS_fst]
  · rw [whatHappened_snd (whatHappened s).1, whatHappened_fst]
    split
    · have hb : ∀ b, 4 ≤ b → b < 7 →
          (writeRegister (readRegister s STATUS).1 STATUS
            (s.chip.status ||| _BV TX_DS ||| _BV MAX_RT ||| _BV RX_DR)).chip.status &&& _BV b = 0 := by
        intro b h4 h7
        have h := status_flag_after_write (readRegister s STATUS).1
          (s.chip.status ||| _BV TX_DS ||| _BV MAX_RT ||| _BV RX_DR) b h4 h7
        rw [readRegister_STATUS_snd] at h
        rw [← truthy_eq_false_iff, h]
        have hb : b = MAX_RT ∨ b = TX_DS ∨ b = RX_DR := by
          unfold MAX_RT TX_DS RX_DR; omega
        rcases hb with rfl | rfl | rfl <;> simp [Nat.testBit_or, testBit_BV_self]
      rw [hb TX_DS (by decide) (by decide), hb MAX_RT (by decide) (by decide),
        hb RX_DR (by decide) (by decide)]
    · rw [whatHappened_snd, readRegister_STATUS_fst]

/-! ## Power down -/

theorem powerDown_eq (s : State) :
    powerDown s =
      writeRegister
        (readRegister (if s._cePin ≠ s._csnPin then digitalWrite s s._cePin false else s) CONFIG).1
        CONFIG ((readRegister s CONFIG).2 &&& complement (_BV PWR_UP)) := by
  unfold powerDown
  simp only [readRegister_CONFIG_snd]
  split <;> rfl

theorem powerDown_config (s : State) :
    (readRegister (powerDown s) CONFIG).2 = (readRegister s CONFIG).2 &&& complement (_BV PWR_UP) := by
  have hc := readRegister_CONFIG_lt s
  have hle : (readRegister s CONFIG).2 &&& complement (_BV PWR_UP) < 256 :=
    Nat.lt_of_le_of_lt Nat.and_le_left hc
  rw [powerDown_eq, readRegister_CONFIG_snd, writeRegister_CONFIG]
  simp [u8_of_lt hle]

/-- C6 as stated fails: on the bench, whose CONFIG register is 0 (PWR_UP clear), `powerDown`
still issues a write to CONFIG. -/
theorem powerDown_writes_when_already_down :
    (readRegister bench CONFIG).2 &&& _BV PWR_UP = 0
    ∧ Event.transfer (W_REGISTER ||| (REGISTER_MASK &&& CONFIG)) [0] ∈ (powerDown bench).trace := by
  decide

/-- C6, amended: in every state `powerDown` drives the enable line low when it is a pin of its own,
reads CONFIG and then writes CONFIG, unconditionally, with the value read with PWR_UP cleared;
the value written equals the value read exactly when PWR_UP was already clear. -/
theorem powerDown_always_writes (s : State) :
    (powerDown s).trace =
        s.trace ++ (if s._cePin ≠ s._csnPin then [Event.digitalWrite s._cePin false] else [])
          ++ [Event.digitalWrite s._csnPin false,
              Event.transfer (R_REGISTER ||| (REGISTER_MASK &&& CONFIG)) [0],
              Event.digitalWrite s._csnPin true,
              Event.digitalWrite s._csnPin false,
              Event.transfer (W_REGISTER ||| (REGISTER_MASK &&& CONFIG))
                [(readRegister s CONFIG).2 &&& complement (_BV PWR_UP)],
              Event.digitalWrite s._csnPin true]
    ∧ ((readRegister s CONFIG).2 &&& complement (_BV PWR_UP) = (readRegister s CONFIG).2
        ↔ (readRegister s CONFIG).2.testBit PWR_UP = false) := by
  have hc := readRegister_CONFIG_lt s
  have hle : (readRegister s CONFIG).2 &&& complement (_BV PWR_UP) < 256 :=
    Nat.lt_of_le_of_lt Nat.and_le_left hc
  refine ⟨?_, clear_eq_self_iff _ _ (by decide) hc⟩
  rw [powerDown_eq, writeRegister_CONFIG, readRegister_CONFIG_fst]
  split <;> simp [u8_of_lt hle, digitalWrite]

/-- C7: after `powerDown` the CONFIG register reads as the value it had with the PWR_UP bit cleared:
bit PWR_UP is clear and every other bit is what it was.  Calling `powerDown` twice leaves the
same CONFIG value as calling it once, and CONFIG is unchanged exactly when PWR_UP was already
clear. -/
theorem powerDown_clears_PWR_UP (s : State) :
    (readRegister (powerDown s) CONFIG).2 = (readRegister s CONFIG).2 &&& complement (_BV PWR_UP)
    ∧ (∀ i, (readRegister (powerDown s) CONFIG).2.testBit i
          = ((readRegister s CONFIG).2.testBit i && decide (i ≠ PWR_UP)))
    ∧ (readRegister (powerDown (powerDown s)) CONFIG).2 = (readRegister (powerDown s) CONFIG).2
    ∧ ((readRegister (powerDown s) CONFIG).2 = (readRegister s CONFIG).2
        ↔ (readRegister s CONFIG).2.testBit PWR_UP = false) := by
  have hc := readRegister_CONFIG_lt s
  refine ⟨powerDown_config s, ?_, ?_, ?_⟩
  · intro i
    rw [powerDown_config, testBit_clear _ _ _ (by decide) hc]
  · rw [powerDown_config (powerDown s)]
    rw [clear_eq_self_iff _ _ (by decide) (readRegister_CONFIG_lt _), powerDown_config,
      testBit_clear _ _ _ (by decide) hc]
    simp
  · rw [powerDown_config]
    exact clear_eq_self_iff _ _ (by decide) hc

/-! ## Initialization -/

theorem init_regs_RF_CH (s : State) (radioId cePin csnPin : Nat) (bitrate : Bitrates) (channel : Nat) :
    (init s radioId cePin csnPin bitrate channel).1.chip.regs RF_CH
      = [if u8 channel > 125 then 125 else u8 channel] := by
  have hu : u8 (if 125 < u8 channel then 125 else u8 channel)
      = if 125 < u8 channel then 125 else u8 channel := by
    split
    · rfl
    · exact u8_of_lt (u8_lt _)
  unfold init
  cases bitrate <;>
  simp +decide [delay, delayMicroseconds_regs, spiBegin, pinMode, digitalWrite, writeRegister_eq, writeRegisterN_eq,
    readRegister_fst, flush_regs, writeReg_regs_of_ne, writeReg_regs_self, RF_CH, RF_SETUP, SETUP_RETR, RX_ADDR_P1, DYNPD,
    FEATURE, STATUS, CONFIG, FIFO_STATUS, hu]

theorem init_regs_SETUP_RETR (s : State) (radioId cePin csnPin : Nat) (bitrate : Bitrates) (channel : Nat) :
    (init s radioId cePin csnPin bitrate channel).1.chip.regs SETUP_RETR
      = [if bitrate = Bitrates.BITRATE250KBPS then 0b01011111 else 0b00011111] := by
  unfold init
  cases bitrate <;>
  simp +decide [delay, delayMicroseconds_regs, spiBegin, pinMode, digitalWrite, writeRegister_eq, writeRegisterN_eq,
    readRegister_fst, flush_regs, writeReg_regs_of_ne, writeReg_regs_self, RF_CH, RF_SETUP, SETUP_RETR, RX_ADDR_P1, DYNPD,
    FEATURE, STATUS, CONFIG, FIFO_STATUS, u8]

theorem init_since_SETUP_RETR (s : State) (radioId cePin csnPin : Nat) (bitrate : Bitrates)
    (channel : Nat) (sent : List Nat) :
    Event.transfer (W_REGISTER ||| (REGISTER_MASK &&& SETUP_RETR)) sent
        ∈ eventsSince s (init s radioId cePin csnPin bitrate channel).1
      ↔ sent = [if bitrate = Bitrates.BITRATE250KBPS then 0b01011111 else 0b00011111] := by
  unfold init eventsSince
  by_cases hss : u8 csnPin = s.boardSS <;> cases bitrate <;>
  simp +decide [delay, delayMicroseconds, spiBegin, pinMode, digitalWrite, digitalRead, writeRegister_eq,
    writeRegisterN_eq, readRegister_fst, spiTransfer_fst, RF_CH, RF_SETUP, SETUP_RETR, RX_ADDR_P1, DYNPD,
    FEATURE, STATUS, CONFIG, FIFO_STATUS, hss, Chip.clock, (by decide : u8 31 = 31),
    (by decide : u8 95 = 95)]

theorem init_timing (s : State) (radioId cePin csnPin : Nat) (bitrate : Bitrates) (channel : Nat) :
    (init s radioId cePin csnPin bitrate channel).1._allowedDataCheckIntervalMicros
        = (match bitrate with
           | Bitrates.BITRATE2MBPS => 600
           | Bitrates.BITRATE1MBPS => 1200
           | Bitrates.BITRATE250KBPS => 8000)
    ∧ (init s radioId cePin csnPin bitrate channel).1._transmissionRetryWaitMicros
        = (match bitrate with
           | Bitrates.BITRATE2MBPS => 250
           | Bitrates.BITRATE1MBPS => 1000
           | Bitrates.BITRATE250KBPS => 1500) := by
  unfold init
  cases bitrate <;> exact ⟨rfl, rfl⟩

/-- C8: for a channel argument `channel` in 0..255, `init` issues exactly one kind of write to
RF_CH, of the single byte `min channel 125`, and RF_CH holds that byte when `init` returns;
this is 125 for every input above 125 and the input itself otherwise, and `init` called with
the already clamped value stores the same byte. -/
theorem init_clamps_channel (s : State) (radioId cePin csnPin : Nat) (bitrate : Bitrates)
    (channel : Nat) (h : channel < 256) :
    (init s radioId cePin csnPin bitrate channel).1.chip.regs RF_CH = [min channel 125]
    ∧ Event.transfer (W_REGISTER ||| (REGISTER_MASK &&& RF_CH)) [min channel 125]
        ∈ eventsSince s (init s radioId cePin csnPin bitrate channel).1
    ∧ (∀ sent, Event.transfer (W_REGISTER ||| (REGISTER_MASK &&& RF_CH)) sent
        ∈ eventsSince s (init s radioId cePin csnPin bitrate channel).1 ↔ sent = [min channel 125])
    ∧ min channel 125 = (if 125 < channel then 125 else channel)
    ∧ (init s radioId cePin csnPin bitrate (min channel 125)).1.chip.regs RF_CH
        = (init s radioId cePin csnPin bitrate channel).1.chip.regs RF_CH := by
  have hmin : (if 125 < channel then 125 else channel) = min channel 125 := by
    split <;> omega
  have hu : u8 channel = channel := u8_of_lt h
  have hu2 : u8 (min channel 125) = min channel 125 := u8_of_lt (by omega)
  have hreg : ∀ ch, ch < 256 →
      (init s radioId cePin csnPin bitrate ch).1.chip.regs RF_CH = [min ch 125] := by
    intro ch hch
    rw [init_regs_RF_CH, u8_of_lt hch]
    congr 1
    show (if 125 < ch then 125 else ch) = min ch 125
    split <;> omega
  refine ⟨hreg channel h, ?_, ?_, hmin.symm, ?_⟩
  · unfold init eventsSince
    by_cases hss : u8 csnPin = s.boardSS <;> cases bitrate <;>
    simp +decide [delay, delayMicroseconds, spiBegin, pinMode, digitalWrite, digitalRead, writeRegister_eq,
      writeRegisterN_eq, readRegister_fst, spiTransfer_fst, RF_CH, RF_SETUP, SETUP_RETR, RX_ADDR_P1, DYNPD,
      FEATURE, STATUS, CONFIG, FIFO_STATUS, hss, hu, hmin, hu2, Chip.clock]
  · intro sent
    unfold init eventsSince
    by_cases hss : u8 csnPin = s.boardSS <;> cases bitrate <;>
    simp +decide [delay, delayMicroseconds, spiBegin, pinMode, digitalWrite, digitalRead, writeRegister_eq,
      writeRegisterN_eq, readRegister_fst, spiTransfer_fst, RF_CH, RF_SETUP, SETUP_RETR, RX_ADDR_P1, DYNPD,
      FEATURE, STATUS, CONFIG, FIFO_STATUS, hss, hu, hmin, hu2, Chip.clock]
  · rw [hreg channel h, hreg (min channel 125) (by omega)]
    congr 1
    omega

/-- Witness for C8: channel 200 is stored as 125. -/
theorem init_clamps_channel_witness :
    200 < 256
    ∧ (init bench 7 9 10 Bitrates.BITRATE250KBPS 200).1.chip.regs RF_CH = [125] :=
  ⟨by decide, (init_clamps_channel bench 7 9 10 Bitrates.BITRATE250KBPS 200 (by decide)).1⟩

/-- C9: for each bitrate tier the only SETUP_RETR write of `init` is the byte the register holds
afterwards, which is 00011111 for 2 Mbps and for 1 Mbps (500 us between retries, 15 retries)
and 01011111 for 250 Kbps (1500 us, 15 retries); `_allowedDataCheckIntervalMicros` and
`_transmissionRetryWaitMicros` as set by `init` are each strictly smaller for 2 Mbps than for
1 Mbps, and for 1 Mbps than for 250 Kbps. -/
theorem init_bitrate_table (s : State) (radioId cePin csnPin channel : Nat) :
    (∀ bitrate sent,
        Event.transfer (W_REGISTER ||| (REGISTER_MASK &&& SETUP_RETR)) sent
            ∈ eventsSince s (init s radioId cePin csnPin bitrate channel).1
          ↔ sent = (init s radioId cePin csnPin bitrate channel).1.chip.regs SETUP_RETR)
    ∧ (init s radioId cePin csnPin Bitrates.BITRATE2MBPS channel).1.chip.regs SETUP_RETR = [0b00011111]
    ∧ (init s radioId cePin csnPin Bitrates.BITRATE1MBPS channel).1.chip.regs SETUP_RETR = [0b00011111]
    ∧ (init s radioId cePin csnPin Bitrates.BITRATE250KBPS channel).1.chip.regs SETUP_RETR = [0b01011111]
    ∧ retryDelayMicros 0b00011111 = 500 ∧ retryCount 0b00011111 = 15
    ∧ retryDelayMicros 0b01011111 = 1500 ∧ retryCount 0b01011111 = 15
    ∧ (init s radioId cePin csnPin Bitrates.BITRATE2MBPS channel).1._allowedDataCheckIntervalMicros
        < (init s radioId cePin csnPin Bitrates.BITRATE1MBPS channel).1._allowedDataCheckIntervalMicros
    ∧ (init s radioId cePin csnPin Bitrates.BITRATE1MBPS channel).1._allowedDataCheckIntervalMicros
        < (init s radioId cePin csnPin Bitrates.BITRATE250KBPS channel).1._allowedDataCheckIntervalMicros
    ∧ (init s radioId cePin csnPin Bitrates.BITRATE2MBPS channel).1._transmissionRetryWaitMicros
        < (init s radioId cePin csnPin Bitrates.BITRATE1MBPS channel).1._transmissionRetryWaitMicros
    ∧ (init s radioId cePin csnPin Bitrates.BITRATE1MBPS channel).1._transmissionRetryWaitMicros
        < (init s radioId cePin csnPin Bitrates.BITRATE250KBPS channel).1._transmissionRetryWaitMicros := by
  refine ⟨?_, ?_, ?_, ?_, by decide, by decide, by decide, by decide, ?_, ?_, ?_, ?_⟩
  · intro bitrate sent
    rw [init_since_SETUP_RETR, init_regs_SETUP_RETR]
  · rw [init_regs_SETUP_RETR]; rfl
  · rw [init_regs_SETUP_RETR]; rfl
  · rw [init_regs_SETUP_RETR]; rfl
  · rw [(init_timing s radioId cePin csnPin Bitrates.BITRATE2MBPS channel).1,
      (init_timing s radioId cePin csnPin Bitrates.BITRATE1MBPS channel).1]
    decide
  · rw [(init_timing s radioId cePin csnPin Bitrates.BITRATE1MBPS channel).1,
      (init_timing s radioId cePin csnPin Bitrates.BITRATE250KBPS channel).1]
    decide
  · rw [(init_timing s radioId cePin csnPin Bitrates.BITRATE2MBPS channel).2,
      (init_timing s radioId cePin csnPin Bitrates.BITRATE1MBPS channel).2]
    decide
  · rw [(init_timing s radioId cePin csnPin Bitrates.BITRATE1MBPS channel).2,
      (init_timing s radioId cePin csnPin Bitrates.BITRATE250KBPS channel).2]
    decide

/-! ## ACK payloads -/

/-- C10 as stated fails: with a pipe-0 packet of declared length 40 at the head of the RX FIFO,
`hasAckData` returns 0 and leaves the RX FIFO empty; with a pipe-0 packet of declared length 0
it returns 0 as well. -/
theorem hasAckData_counterexample :
    (benchAckOversized.chip.status &&& 0b1110) >>> 1 = 0
    ∧ (hasAckData benchAckOversized).2 = 0
    ∧ benchAckOversized.chip.rxFifo ≠ []
    ∧ (hasAckData benchAckOversized).1.chip.rxFifo = []
    ∧ (benchAckEmpty.chip.status &&& 0b1110) >>> 1 = 0
    ∧ (hasAckData benchAckEmpty).2 = 0 := by
  decide

/-- C10, amended: `hasAckData` returns the declared length of the head packet when STATUS bits
3..1 are 0 and that length is at most 32, and 0 otherwise; so it returns nonzero exactly when
the head packet arrived via pipe 0 with a declared length from 1 to 32.  The transceiver is
left as it was, except when the head packet is on pipe 0 with a declared length above 32: then
the RX FIFO is flushed. -/
theorem hasAckData_reports (s : State) :
    (hasAckData s).2
        = (if (s.chip.status &&& 0b1110) >>> 1 = 0 ∧ u8 s.chip.plWidth ≤ 32 then u8 s.chip.plWidth
           else 0)
    ∧ ((hasAckData s).2 ≠ 0
        ↔ (s.chip.status &&& 0b1110) >>> 1 = 0 ∧ 1 ≤ u8 s.chip.plWidth ∧ u8 s.chip.plWidth ≤ 32)
    ∧ (hasAckData s).1.chip
        = (if (s.chip.status &&& 0b1110) >>> 1 = 0 ∧ 32 < u8 s.chip.plWidth then
             { s.chip with rxFifo := [] }
           else s.chip) := by
  have hval : (hasAckData s).2
        = (if (s.chip.status &&& 0b1110) >>> 1 = 0 ∧ u8 s.chip.plWidth ≤ 32 then u8 s.chip.plWidth
           else 0) := by
    unfold hasAckData getPipeOfFirstRxFifoPacket
    simp only [readRegister_STATUS_snd]
    by_cases hp : (s.chip.status &&& 0b1110) >>> 1 = 0
    · simp only [hp, if_true, true_and, getRxFifoPacketLength_snd, readRegister_STATUS_fst]
      split_ifs <;> first | rfl | omega
    · simp [hp]
  refine ⟨hval, ?_, ?_⟩
  · rw [hval]
    split_ifs with h
    · constructor
      · intro h0; exact ⟨h.1, by omega, h.2⟩
      · intro h0; omega
    · constructor
      · intro h0; exact absurd rfl h0
      · intro h0; exact absurd ⟨h0.1, h0.2.2⟩ h
  · unfold hasAckData getPipeOfFirstRxFifoPacket
    simp only [readRegister_STATUS_snd]
    by_cases hp : (s.chip.status &&& 0b1110) >>> 1 = 0
    · simp only [hp, if_true, true_and, getRxFifoPacketLength_chip, readRegister_STATUS_fst]
    · simp [hp, readRegister_STATUS_fst]

/-! ## Preparation for transmission -/

theorem prepForTransmission_eq (fuel : Nat) (s : State) (toRadioId : Nat) (sendType : SendType) :
    prepForTransmission fuel s toRadioId sendType =
      if truthy ((prepFifoCheck (prepMode s toRadioId) sendType).2 &&& _BV FIFO_FULL) then
        (drainLoop fuel
          { (prepFifoCheck (prepMode s toRadioId) sendType).1 with _enableInterruptFlagsReset := 0 }
          (prepFifoCheck (prepMode s toRadioId) sendType).2).map
          fun s => { s with _enableInterruptFlagsReset := 1 }
      else some (prepFifoCheck (prepMode s toRadioId) sendType).1 := rfl

theorem prepStandby_config (s : State) (toRadioId : Nat) :
    (readRegister
        (writeRegisterN (writeRegisterN s TX_ADDR [1, 2, 3, 4, u8 toRadioId] 5) RX_ADDR_P0
          [1, 2, 3, 4, u8 toRadioId] 5) CONFIG).2 = (readRegister s CONFIG).2 := by
  rw [readRegister_CONFIG_snd, readRegister_CONFIG_snd]
  have h1 : CONFIG ≠ RX_ADDR_P0 := by decide
  have h2 : CONFIG ≠ TX_ADDR := by decide
  rw [writeRegisterN_eq _ _ _ _ (by decide), writeRegisterN_eq _ _ _ _ (by decide)]
  simp only [writeReg_regs_of_ne _ _ _ _ h1, writeReg_regs_of_ne _ _ _ _ h2]

theorem testBit_BV (b i : Nat) : (_BV b).testBit i = decide (b = i) := by
  unfold _BV
  rw [Nat.one_shiftLeft]
  exact Nat.testBit_two_pow

theorem txConfigReg_testBit (c i : Nat) (hc : c < 256) :
    (txConfigReg c).testBit i = (decide (i = PWR_UP) || (c.testBit i && decide (i ≠ PRIM_RX))) := by
  unfold txConfigReg u8
  rw [show (256 : Nat) = 2 ^ 8 by decide, Nat.testBit_mod_two_pow, Nat.testBit_or,
    testBit_clear c PRIM_RX i (by decide) hc, testBit_BV]
  by_cases hi : i < 8
  · by_cases h1 : i = PWR_UP
    · subst h1; simp [hi]
    · have : ¬ PWR_UP = i := fun h => h1 h.symm
      simp [hi, h1, this]
  · have h0 : c.testBit i = false :=
      Nat.testBit_lt_two_pow (Nat.lt_of_lt_of_le hc
        (by rw [show (256 : Nat) = 2 ^ 8 by decide]; exact Nat.pow_le_pow_right (by decide) (by omega)))
    have h1 : ¬ i = PWR_UP := by unfold PWR_UP; omega
    simp [hi, h0, h1]

theorem not_listening_of_eq (c : Nat) (hc : c < 256) (h : ¬ c ≠ txConfigReg c) :
    ¬ (truthy (c &&& _BV PRIM_RX) = true ∧ truthy (c &&& _BV PWR_UP) = true) := by
  intro hl
  have h0 := txConfigReg_testBit c PRIM_RX hc
  rw [← not_not.mp h, ← truthy_and_BV, hl.1] at h0
  simp +decide at h0

theorem prepMode_eq (s : State) (toRadioId : Nat) :
    prepMode s toRadioId =
      if (readRegister s CONFIG).2 ≠ txConfigReg (readRegister s CONFIG).2 then
        delayMicroseconds
          (writeRegister (prepStandby s toRadioId) CONFIG (txConfigReg (readRegister s CONFIG).2))
          1630
      else prepStandby s toRadioId := by
  have hc := prepStandby_config s toRadioId
  have hn := not_listening_of_eq _ (readRegister_CONFIG_lt s)
  unfold prepMode prepStandby
  simp only [hc]
  unfold txConfigReg at hn ⊢
  split
  · rfl
  · rename_i h
    rw [if_neg (hn h)]

theorem prepStandby_eq (s : State) (toRadioId : Nat) :
    prepStandby s toRadioId =
      if truthy ((readRegister s CONFIG).2 &&& _BV PRIM_RX) = true
          ∧ truthy ((readRegister s CONFIG).2 &&& _BV PWR_UP) = true then
        (if s._cePin = s._csnPin ∨ s.pins s._cePin = true then
          digitalWrite
            (readRegister
              (writeRegisterN (writeRegisterN s TX_ADDR [1, 2, 3, 4, u8 toRadioId] 5) RX_ADDR_P0
                [1, 2, 3, 4, u8 toRadioId] 5) CONFIG).1 s._cePin false
         else
          (readRegister
            (writeRegisterN (writeRegisterN s TX_ADDR [1, 2, 3, 4, u8 toRadioId] 5) RX_ADDR_P0
              [1, 2, 3, 4, u8 toRadioId] 5) CONFIG).1)
      else
        (readRegister
          (writeRegisterN (writeRegisterN s TX_ADDR [1, 2, 3, 4, u8 toRadioId] 5) RX_ADDR_P0
            [1, 2, 3, 4, u8 toRadioId] 5) CONFIG).1 := by
  have hc := prepStandby_config s toRadioId
  unfold prepStandby
  simp only [hc]
  split
  · have hread : digitalRead
          (readRegister
            (writeRegisterN (writeRegisterN s TX_ADDR [1, 2, 3, 4, u8 toRadioId] 5) RX_ADDR_P0
              [1, 2, 3, 4, u8 toRadioId] 5) CONFIG).1
          (readRegister
            (writeRegisterN (writeRegisterN s TX_ADDR [1, 2, 3, 4, u8 toRadioId] 5) RX_ADDR_P0
              [1, 2, 3, 4, u8 toRadioId] 5) CONFIG).1._cePin = true
        ↔ (s._cePin = s._csnPin ∨ s.pins s._cePin = true) := by
      rw [readRegister_fst _ _ (by decide), writeRegisterN_eq _ _ _ _ (by decide),
        writeRegisterN_eq _ _ _ _ (by decide)]
      by_cases hp : s._cePin = s._csnPin
      · simp only [digitalRead]
        rw [hp]
        simp
      · simp [digitalRead, hp, Function.update_noteq hp]
    by_cases hp : s._cePin = s._csnPin ∨ s.pins s._cePin = true
    · rw [if_pos (hread.mpr hp), if_pos hp]; rfl
    · rw [if_neg (fun h => hp (hread.mp h)), if_neg hp]
  · rfl

theorem prepStandby_events (s : State) (toRadioId : Nat) :
    eventsSince s (prepStandby s toRadioId) =
      [Event.digitalWrite s._csnPin false,
       Event.transfer (W_REGISTER ||| (REGISTER_MASK &&& TX_ADDR)) [1, 2, 3, 4, u8 toRadioId],
       Event.digitalWrite s._csnPin true,
       Event.digitalWrite s._csnPin false,
       Event.transfer (W_REGISTER ||| (REGISTER_MASK &&& RX_ADDR_P0)) [1, 2, 3, 4, u8 toRadioId],
       Event.digitalWrite s._csnPin true,
       Event.digitalWrite s._csnPin false,
       Event.transfer (R_REGISTER ||| (REGISTER_MASK &&& CONFIG)) [0],
       Event.digitalWrite s._csnPin true]
      ++ (if (truthy ((readRegister s CONFIG).2 &&& _BV PRIM_RX) = true
              ∧ truthy ((readRegister s CONFIG).2 &&& _BV PWR_UP) = true)
            ∧ (s._cePin = s._csnPin ∨ s.pins s._cePin = true) then
            [Event.digitalWrite s._cePin false]
          else []) := by
  rw [prepStandby_eq]
  unfold eventsSince
  split_ifs <;>
    simp_all [readRegister_fst, writeRegisterN_eq, digitalWrite, Chip.clock, TX_ADDR, RX_ADDR_P0, CONFIG]

theorem prepStandby_enable (s : State) (toRadioId : Nat) :
    digitalRead (prepStandby s toRadioId) s._cePin =
      (if truthy ((readRegister s CONFIG).2 &&& _BV PRIM_RX) = true
          ∧ truthy ((readRegister s CONFIG).2 &&& _BV PWR_UP) = true then false
       else (decide (s._cePin = s._csnPin) || s.pins s._cePin)) := by
  rw [prepStandby_eq]
  by_cases hp : s._cePin = s._csnPin <;>
  split_ifs <;>
    simp_all [readRegister_fst, writeRegisterN_eq, digitalWrite, digitalRead, TX_ADDR, RX_ADDR_P0, CONFIG,
      Function.update_noteq]

theorem eventsSince_of_trace (a b : State) (rest : List Event) (h : b.trace = a.trace ++ rest) :
    eventsSince a b = rest := by
  unfold eventsSince
  rw [h, List.drop_left]

theorem prepStandby_trace (s : State) (toRadioId : Nat) :
    (prepStandby s toRadioId).trace = s.trace ++ eventsSince s (prepStandby s toRadioId) := by
  rw [prepStandby_events, prepStandby_eq]
  split_ifs <;>
    simp_all [readRegister_fst, writeRegisterN_eq, digitalWrite, Chip.clock, TX_ADDR, RX_ADDR_P0, CONFIG]

theorem fields_writeRegisterN (s : State) (r : Nat) (data : List Nat) (n : Nat) :
    fields (writeRegisterN s r data n) = fields s := rfl

theorem fields_prepStandby (s : State) (toRadioId : Nat) :
    fields (prepStandby s toRadioId) = fields s := by
  rw [prepStandby_eq]
  split_ifs <;> simp [fields_writeRegisterN]

theorem prepStandby_regs (s : State) (toRadioId : Nat) :
    (prepStandby s toRadioId).chip.regs CONFIG = s.chip.regs CONFIG := by
  have h1 : CONFIG ≠ RX_ADDR_P0 := by decide
  have h2 : CONFIG ≠ TX_ADDR := by decide
  rw [prepStandby_eq]
  split_ifs <;>
    simp only [digitalWrite, readRegister_chip _ _ (show CONFIG < 32 by decide),
      writeRegisterN_eq _ _ _ _ (show RX_ADDR_P0 < 32 by decide),
      writeRegisterN_eq _ _ _ _ (show TX_ADDR < 32 by decide),
      writeReg_regs_of_ne _ _ _ _ h1, writeReg_regs_of_ne _ _ _ _ h2]

theorem prepMode_config (s : State) (toRadioId : Nat) :
    (readRegister (prepMode s toRadioId) CONFIG).2 = txConfigReg (readRegister s CONFIG).2 := by
  have hlt : txConfigReg (readRegister s CONFIG).2 < 256 := u8_lt _
  rw [prepMode_eq]
  split
  · rw [readRegister_CONFIG_snd, delayMicroseconds_regs, writeRegister_CONFIG]
    simp [u8_of_lt hlt]
  · rename_i h
    rw [readRegister_CONFIG_snd, prepStandby_regs, ← readRegister_CONFIG_snd]
    exact not_not.mp h

theorem prepMode_trace (s : State) (toRadioId : Nat) :
    (prepMode s toRadioId).trace =
      s.trace ++ (eventsSince s (prepStandby s toRadioId)
        ++ (if (readRegister s CONFIG).2 ≠ txConfigReg (readRegister s CONFIG).2 then
              [Event.digitalWrite s._csnPin false,
               Event.transfer (W_REGISTER ||| (REGISTER_MASK &&& CONFIG))
                 [txConfigReg (readRegister s CONFIG).2],
               Event.digitalWrite s._csnPin true,
               Event.delayMicroseconds 1630]
            else [])) := by
  have hlt : txConfigReg (readRegister s CONFIG).2 < 256 := u8_lt _
  have hf := fields_prepStandby s toRadioId
  simp only [fields, Prod.mk.injEq] at hf
  rw [prepMode_eq]
  split
  · simp [delayMicroseconds, writeRegister_CONFIG, prepStandby_trace, hf.2.1, u8_of_lt hlt]
  · simp [prepStandby_trace]

theorem leavesConfig_refl (a : State) : leavesConfig a a :=
  ⟨rfl, rfl, [], by simp, by simp⟩

theorem leavesConfig_trans {a b c : State} (h1 : leavesConfig a b) (h2 : leavesConfig b c) :
    leavesConfig a c := by
  obtain ⟨f1, r1, l1, t1, n1⟩ := h1
  obtain ⟨f2, r2, l2, t2, n2⟩ := h2
  refine ⟨f2.trans f1, r2.trans r1, l1 ++ l2, by rw [t2, t1, List.append_assoc], ?_⟩
  intro sent hmem
  rcases List.mem_append.mp hmem with h | h
  · exact n1 sent h
  · exact n2 sent h

theorem leavesConfig_digitalWrite (s : State) (pin : Nat) (level : Bool) :
    leavesConfig s (digitalWrite s pin level) :=
  ⟨rfl, rfl, [Event.digitalWrite pin level], rfl, by simp⟩

theorem leavesConfig_delayMicroseconds (s : State) (us : Nat) :
    leavesConfig s (delayMicroseconds s us) :=
  ⟨rfl, delayMicroseconds_regs s us, [Event.delayMicroseconds us], rfl, by simp⟩

theorem readCommand_ne_writeConfig : ∀ r, r < 32 →
    W_REGISTER ||| (REGISTER_MASK &&& CONFIG) ≠ R_REGISTER ||| (REGISTER_MASK &&& r) := by
  decide

theorem leavesConfig_readRegister (s : State) (r : Nat) (h : r < 32) :
    leavesConfig s (readRegister s r).1 := by
  refine ⟨rfl, by rw [readRegister_chip s r h], _, by rw [readRegister_fst s r h], ?_⟩
  intro sent
  simp [readCommand_ne_writeConfig r h]

theorem leavesConfig_writeRegister_STATUS (s : State) (v : Nat) :
    leavesConfig s (writeRegister s STATUS v) := by
  refine ⟨rfl, by rw [writeRegister_STATUS], _, by rw [writeRegister_STATUS], ?_⟩
  intro sent
  simp +decide

theorem leavesConfig_flush (s : State) (command : Nat)
    (h : command = FLUSH_RX ∨ command = FLUSH_TX) :
    leavesConfig s (spiTransfer s SpiTransferType.WRITE_OPERATION command [] 0).1 := by
  refine ⟨rfl, flush_regs s command h, _, by rw [spiTransfer_fst], ?_⟩
  intro sent
  rcases h with rfl | rfl <;> simp +decide

theorem leavesConfig_drainLoop (fuel : Nat) : ∀ (s : State) (fifoReg : Nat) (s1 : State),
    drainLoop fuel s fifoReg = some s1 → leavesConfig s s1 := by
  induction fuel with
  | zero =>
    intro s fifoReg s1 h
    unfold drainLoop at h
    split at h
    · rw [Option.some.injEq] at h; subst h; exact leavesConfig_refl _
    · exact absurd h (by simp)
  | succ fuel ih =>
    intro s fifoReg s1 h
    unfold drainLoop at h
    split at h
    · rw [Option.some.injEq] at h; subst h; exact leavesConfig_refl _
    · have hstep := ih _ _ _ h
      refine leavesConfig_trans ?_ hstep
      refine leavesConfig_trans ?_ (leavesConfig_readRegister _ FIFO_STATUS (by decide))
      have hpre : leavesConfig s
          (readRegister (delayMicroseconds (digitalWrite (delayMicroseconds
            (digitalWrite s s._cePin true) 11) s._cePin false) s._transmissionRetryWaitMicros)
            STATUS).1 :=
        leavesConfig_trans (leavesConfig_trans (leavesConfig_trans (leavesConfig_trans
          (leavesConfig_digitalWrite _ _ _) (leavesConfig_delayMicroseconds _ _))
          (leavesConfig_digitalWrite _ _ _)) (leavesConfig_delayMicroseconds _ _))
          (leavesConfig_readRegister _ STATUS (by decide))
      refine leavesConfig_trans hpre ?_
      split_ifs
      · exact leavesConfig_writeRegister_STATUS _ _
      · exact leavesConfig_trans (leavesConfig_flush _ _ (Or.inr rfl))
          (leavesConfig_writeRegister_STATUS _ _)
      · exact leavesConfig_refl _

theorem leavesConfig_prepFifoCheck (s : State) (sendType : SendType) :
    leavesConfig s (prepFifoCheck s sendType).1 := by
  unfold prepFifoCheck
  refine leavesConfig_trans (leavesConfig_readRegister s FIFO_STATUS (by decide)) ?_
  dsimp only
  split_ifs
  · exact leavesConfig_flush _ _ (Or.inl rfl)
  · exact leavesConfig_refl _

theorem prepForTransmission_after_mode (fuel : Nat) (s : State) (toRadioId : Nat)
    (sendType : SendType) (s1 : State)
    (h : prepForTransmission fuel s toRadioId sendType = some s1) :
    s1.chip.regs = (prepMode s toRadioId).chip.regs
    ∧ ∃ rest, s1.trace = (prepMode s toRadioId).trace ++ rest
        ∧ ∀ sent, Event.transfer (W_REGISTER ||| (REGISTER_MASK &&& CONFIG)) sent ∉ rest := by
  rw [prepForTransmission_eq] at h
  obtain ⟨-, hr, rest, ht, hn⟩ := leavesConfig_prepFifoCheck (prepMode s toRadioId) sendType
  split at h
  · obtain ⟨x, hx, rfl⟩ := Option.map_eq_some'.mp h
    obtain ⟨-, hr2, rest2, ht2, hn2⟩ := leavesConfig_drainLoop fuel _ _ _ hx
    refine ⟨hr2.trans hr, rest ++ rest2, ?_, ?_⟩
    · show x.trace = _
      rw [ht2]
      show (prepFifoCheck (prepMode s toRadioId) sendType).1.trace ++ rest2 = _
      rw [ht, List.append_assoc]
    · intro sent hmem
      rcases List.mem_append.mp hmem with h1 | h1
      · exact hn sent h1
      · exact hn2 sent h1
  · rw [Option.some.injEq] at h
    subst h
    exact ⟨hr, rest, ht, hn⟩

/-- C11: let `c` be the CONFIG value `prepForTransmission` reads.  The value `txConfigReg c` is
`c` with bit PRIM_RX cleared, bit PWR_UP set and every other bit unchanged.  After the mode step
CONFIG reads as that value, and it still does in whatever state `prepForTransmission` returns,
whose later steps issue no CONFIG write.  The mode step issues the CONFIG write followed by the
1630 us wait exactly when `c` differs from `txConfigReg c`, and nothing otherwise.  Before it,
when `c` has both PRIM_RX and PWR_UP set, the enable line reads low: a `digitalWrite` low is
issued exactly when the line read high.  `prepForTransmission` returns for every fuel when the
TX FIFO is not reported full. -/
theorem prepForTransmission_sets_mode (fuel : Nat) (s : State) (toRadioId : Nat)
    (sendType : SendType) :
    (∀ i, (txConfigReg (readRegister s CONFIG).2).testBit i
        = (decide (i = PWR_UP) || ((readRegister s CONFIG).2.testBit i && decide (i ≠ PRIM_RX))))
    ∧ (readRegister (prepMode s toRadioId) CONFIG).2 = txConfigReg (readRegister s CONFIG).2
    ∧ eventsSince s (prepMode s toRadioId) =
        eventsSince s (prepStandby s toRadioId)
          ++ (if (readRegister s CONFIG).2 ≠ txConfigReg (readRegister s CONFIG).2 then
                [Event.digitalWrite s._csnPin false,
                 Event.transfer (W_REGISTER ||| (REGISTER_MASK &&& CONFIG))
                   [txConfigReg (readRegister s CONFIG).2],
                 Event.digitalWrite s._csnPin true,
                 Event.delayMicroseconds 1630]
              else [])
    ∧ eventsSince s (prepStandby s toRadioId) =
        [Event.digitalWrite s._csnPin false,
         Event.transfer (W_REGISTER ||| (REGISTER_MASK &&& TX_ADDR)) [1, 2, 3, 4, u8 toRadioId],
         Event.digitalWrite s._csnPin true,
         Event.digitalWrite s._csnPin false,
         Event.transfer (W_REGISTER ||| (REGISTER_MASK &&& RX_ADDR_P0)) [1, 2, 3, 4, u8 toRadioId],
         Event.digitalWrite s._csnPin true,
         Event.digitalWrite s._csnPin false,
         Event.transfer (R_REGISTER ||| (REGISTER_MASK &&& CONFIG)) [0],
         Event.digitalWrite s._csnPin true]
        ++ (if (truthy ((readRegister s CONFIG).2 &&& _BV PRIM_RX) = true
                ∧ truthy ((readRegister s CONFIG).2 &&& _BV PWR_UP) = true)
              ∧ (s._cePin = s._csnPin ∨ s.pins s._cePin = true) then
              [Event.digitalWrite s._cePin false]
            else [])
    ∧ digitalRead (prepStandby s toRadioId) s._cePin =
        (if truthy ((readRegister s CONFIG).2 &&& _BV PRIM_RX) = true
            ∧ truthy ((readRegister s CONFIG).2 &&& _BV PWR_UP) = true then false
         else (decide (s._cePin = s._csnPin) || s.pins s._cePin))
    ∧ (∀ s1, prepForTransmission fuel s toRadioId sendType = some s1 →
        (readRegister s1 CONFIG).2 = txConfigReg (readRegister s CONFIG).2
        ∧ ∃ rest, eventsSince s s1 = eventsSince s (prepMode s toRadioId) ++ rest
            ∧ ∀ sent, Event.transfer (W_REGISTER ||| (REGISTER_MASK &&& CONFIG)) sent ∉ rest)
    ∧ (truthy ((readRegister (prepMode s toRadioId) FIFO_STATUS).2 &&& _BV FIFO_FULL) = false →
        (prepForTransmission fuel s toRadioId sendType).isSome = true) := by
  refine ⟨fun i => txConfigReg_testBit _ i (readRegister_CONFIG_lt s), prepMode_config s toRadioId,
    eventsSince_of_trace _ _ _ (prepMode_trace s toRadioId), prepStandby_events s toRadioId,
    prepStandby_enable s toRadioId, ?_, ?_⟩
  · intro s1 h
    obtain ⟨hr, rest, ht, hn⟩ := prepForTransmission_after_mode fuel s toRadioId sendType s1 h
    refine ⟨?_, rest, ?_, hn⟩
    · rw [readRegister_CONFIG_snd, hr, ← readRegister_CONFIG_snd, prepMode_config]
    · rw [eventsSince_of_trace _ _ _ (prepMode_trace s toRadioId)]
      apply eventsSince_of_trace
      rw [ht, prepMode_trace, List.append_assoc]
  · intro hfull
    rw [prepForTransmission_eq]
    have : (prepFifoCheck (prepMode s toRadioId) sendType).2
        = (readRegister (prepMode s toRadioId) FIFO_STATUS).2 := rfl
    rw [this, hfull]
    rfl

/-- Witness for C11: on the bench in Listening mode (CONFIG 00001011) the preparation returns
and CONFIG reads 00001010 afterwards. -/
theorem prepForTransmission_sets_mode_witness :
    truthy ((readRegister (prepMode benchListening 3) FIFO_STATUS).2 &&& _BV FIFO_FULL) = false
    ∧ (prepForTransmission 0 benchListening 3 SendType.REQUIRE_ACK).isSome = true
    ∧ (readRegister benchListening CONFIG).2 = 0x0B
    ∧ (readRegister (prepared benchListening 3 SendType.REQUIRE_ACK) CONFIG).2 = 0x0A :=
  ⟨by decide,
    (prepForTransmission_sets_mode 0 benchListening 3 SendType.REQUIRE_ACK).2.2.2.2.2.2 (by decide),
    by decide,
    (((prepForTransmission_sets_mode 0 benchListening 3 SendType.REQUIRE_ACK).2.2.2.2.2.1
      (prepared benchListening 3 SendType.REQUIRE_ACK) rfl).1).trans (by decide)⟩

/-! ## The flag-reset toggle -/

theorem fields_readRegisterN (s : State) (r : Nat) (data : List Nat) (n : Nat) :
    fields (readRegisterN s r data n).1 = fields s := rfl

theorem toggle_of_fields {a b : State} (h : fields a = fields b) :
    a._enableInterruptFlagsReset = b._enableInterruptFlagsReset := by
  simp only [fields, Prod.mk.injEq] at h
  exact h.2.2.1

theorem fields_addAckData (s : State) (data : List Nat) (length removeExistingAcks : Nat) :
    fields (addAckData s data length removeExistingAcks) = fields s := by
  unfold addAckData
  split_ifs <;> simp

theorem fields_hasAckData (s : State) : fields (hasAckData s).1 = fields s := by
  unfold hasAckData
  dsimp only
  rw [fields_lengthOrZero, fields_getPipeOfFirstRxFifoPacket]

theorem toggle_hasData (s : State) (usingInterrupts : Nat) :
    (hasData s usingInterrupts).1._enableInterruptFlagsReset = s._enableInterruptFlagsReset := by
  cases hg : hasDataGate s usingInterrupts with
  | none => rw [hasData_of_gate_none s usingInterrupts hg]
  | some s0 =>
    rw [toggle_of_fields (fields_hasData s s0 usingInterrupts hg)]
    unfold hasDataGate at hg
    split_ifs at hg <;> (rw [Option.some.injEq] at hg; subst hg; rfl)

theorem fields_readData (s : State) (data : List Nat) : fields (readData s data).1 = fields s := by
  unfold readData
  dsimp only
  split <;> simp

theorem fields_whatHappened (s : State) : fields (whatHappened s).1 = fields s := by
  rw [whatHappened_fst]
  split <;> simp

theorem fields_powerDown (s : State) : fields (powerDown s) = fields s := by
  rw [powerDown_eq]
  split_ifs <;> simp

theorem fields_printDetails (s : State) : fields (printDetails s) = fields s := by
  unfold printDetails
  simp [fields_readRegisterN]

theorem fields_enqueueAndTrigger (s : State) (data : List Nat) (length : Nat) (sendType : SendType) :
    fields (enqueueAndTrigger s data length sendType) = fields s := by
  unfold enqueueAndTrigger
  dsimp only
  split_ifs <;> simp

theorem fields_sendStart (s : State) (data : List Nat) (length : Nat) (sendType : SendType) :
    fields (sendStart s data length sendType) = fields s := by
  unfold sendStart
  dsimp only
  rw [fields_enqueueAndTrigger]
  split_ifs <;> simp

theorem fields_poll (s : State) : fields (poll s).1 = fields s := by
  unfold poll
  simp

theorem fields_sendWait (fuel : Nat) : ∀ (s : State) (r : State × Nat),
    sendWait fuel s = some r → fields r.1 = fields s := by
  induction fuel with
  | zero => intro s r h; exact absurd h (by simp [sendWait])
  | succ fuel ih =>
    intro s r h
    unfold sendWait at h
    dsimp only at h
    split_ifs at h
    · rw [Option.some.injEq] at h; subst h; simp [fields_poll]
    · rw [Option.some.injEq] at h; subst h; simp [fields_poll]
    · rw [ih _ _ h, fields_poll]

theorem fields_prepMode (s : State) (toRadioId : Nat) :
    fields (prepMode s toRadioId) = fields s := by
  rw [prepMode_eq]
  split <;> simp [fields_prepStandby]

theorem fields_prepFifoCheck (s : State) (toRadioId : Nat) (sendType : SendType) :
    fields (prepFifoCheck (prepMode s toRadioId) sendType).1 = fields s :=
  (leavesConfig_prepFifoCheck _ _).1.trans (fields_prepMode s toRadioId)

theorem fields_drainLoop (fuel : Nat) (s : State) (fifoReg : Nat) (s1 : State)
    (h : drainLoop fuel s fifoReg = some s1) : fields s1 = fields s :=
  (leavesConfig_drainLoop fuel s fifoReg s1 h).1

theorem fields_prepForTransmission (fuel : Nat) (s : State) (toRadioId : Nat)
    (sendType : SendType) (s1 : State)
    (h : prepForTransmission fuel s toRadioId sendType = some s1) :
    fields s1 =
      fields { s with
        _enableInterruptFlagsReset :=
          (if truthy ((prepFifoCheck (prepMode s toRadioId) sendType).2 &&& _BV FIFO_FULL) then 1
           else s._enableInterruptFlagsReset) } := by
  rw [prepForTransmission_eq] at h
  have hq := fields_prepFifoCheck s toRadioId sendType
  split at h
  · rename_i hfull
    obtain ⟨x, hx, rfl⟩ := Option.map_eq_some'.mp h
    have hd := fields_drainLoop fuel _ _ _ hx
    simp only [fields, Prod.mk.injEq] at hq hd ⊢
    simp only [hfull, if_true]
    exact ⟨hd.1.trans hq.1, hd.2.1.trans hq.2.1, trivial, hd.2.2.2.1.trans hq.2.2.2.1,
      hd.2.2.2.2.1.trans hq.2.2.2.2.1, hd.2.2.2.2.2.trans hq.2.2.2.2.2⟩
  · rename_i hfull
    rw [Option.some.injEq] at h
    subst h
    rw [hq]
    simp only [fields, Prod.mk.injEq]
    simp [hfull]

theorem toggle_prepForTransmission (fuel : Nat) (s : State) (toRadioId : Nat)
    (sendType : SendType) (s1 : State) (h1 : s._enableInterruptFlagsReset = 1)
    (h : prepForTransmission fuel s toRadioId sendType = some s1) :
    s1._enableInterruptFlagsReset = 1 := by
  rw [toggle_of_fields (fields_prepForTransmission fuel s toRadioId sendType s1 h)]
  simp [h1]

theorem toggle_send (prepFuel waitFuel : Nat) (s : State) (toRadioId : Nat) (data : List Nat)
    (length : Nat) (sendType : SendType) (r : State × Nat)
    (h1 : s._enableInterruptFlagsReset = 1)
    (h : send prepFuel waitFuel s toRadioId data length sendType = some r) :
    r.1._enableInterruptFlagsReset = 1 := by
  unfold send at h
  cases hp : prepForTransmission prepFuel s toRadioId sendType with
  | none => rw [hp] at h; exact absurd h (by simp)
  | some s0 =>
    rw [hp] at h
    rw [toggle_of_fields ((fields_sendWait waitFuel _ _ h).trans (fields_sendStart _ _ _ _))]
    exact toggle_prepForTransmission prepFuel s toRadioId sendType s0 h1 hp

theorem toggle_startSend (prepFuel : Nat) (s : State) (toRadioId : Nat) (data : List Nat)
    (length : Nat) (sendType : SendType) (s1 : State)
    (h1 : s._enableInterruptFlagsReset = 1)
    (h : startSend prepFuel s toRadioId data length sendType = some s1) :
    s1._enableInterruptFlagsReset = 1 := by
  unfold startSend at h
  obtain ⟨s0, hp, rfl⟩ := Option.map_eq_some'.mp h
  rw [toggle_of_fields (fields_enqueueAndTrigger _ _ _ _)]
  exact toggle_prepForTransmission prepFuel s toRadioId sendType s0 h1 hp

theorem toggle_init (s : State) (radioId cePin csnPin : Nat) (bitrate : Bitrates) (channel : Nat) :
    (init s radioId cePin csnPin bitrate channel).1._enableInterruptFlagsReset = 1 := by
  unfold init
  dsimp only
  cases bitrate <;> split_ifs <;> rfl

theorem whatHappened_clears (s : State) (h1 : s._enableInterruptFlagsReset = 1) (b : Nat)
    (h4 : 4 ≤ b) (h7 : b < 7) :
    truthy ((readRegister (whatHappened s).1 STATUS).2 &&& _BV b) = false := by
  have hne : s._enableInterruptFlagsReset ≠ 0 := by omega
  rw [whatHappened_fst, if_pos hne, status_flag_after_write _ _ _ h4 h7]
  have hb : b = MAX_RT ∨ b = TX_DS ∨ b = RX_DR := by
    unfold MAX_RT TX_DS RX_DR; omega
  rcases hb with rfl | rfl | rfl <;> simp [Nat.testBit_or, testBit_BV_self]

/-- C12: `init` leaves `_enableInterruptFlagsReset` at 1.  `addAckData`, `hasAckData`, `hasData`,
`hasDataISR`, `readData`, `whatHappened`, `powerDown` and `printDetails` leave it as it is.
`prepForTransmission` leaves it as it is up to the test of FIFO_FULL; only when the TX FIFO is
reported full does it set it to 0, run the drain loop, which never changes it, and set it to 1
when the loop has ended; so `send` and `startSend` return with 1 in that case and with the
value they found otherwise.  Hence from a state where it is 1, `send` and `startSend` return
with 1, and `whatHappened` leaves TX_DS, MAX_RT and RX_DR clear. -/
theorem interruptFlagsReset_invariant (s : State) :
    (∀ s0 radioId cePin csnPin bitrate channel,
        (init s0 radioId cePin csnPin bitrate channel).1._enableInterruptFlagsReset = 1)
    ∧ (∀ data length removeExistingAcks,
        (addAckData s data length removeExistingAcks)._enableInterruptFlagsReset
          = s._enableInterruptFlagsReset)
    ∧ (hasAckData s).1._enableInterruptFlagsReset = s._enableInterruptFlagsReset
    ∧ (∀ usingInterrupts,
        (hasData s usingInterrupts).1._enableInterruptFlagsReset = s._enableInterruptFlagsReset)
    ∧ (hasDataISR s).1._enableInterruptFlagsReset = s._enableInterruptFlagsReset
    ∧ (∀ data, (readData s data).1._enableInterruptFlagsReset = s._enableInterruptFlagsReset)
    ∧ (whatHappened s).1._enableInterruptFlagsReset = s._enableInterruptFlagsReset
    ∧ (powerDown s)._enableInterruptFlagsReset = s._enableInterruptFlagsReset
    ∧ (printDetails s)._enableInterruptFlagsReset = s._enableInterruptFlagsReset
    ∧ (∀ fuel toRadioId sendType,
        prepForTransmission fuel s toRadioId sendType =
          if truthy ((prepFifoCheck (prepMode s toRadioId) sendType).2 &&& _BV FIFO_FULL) then
            (drainLoop fuel
              { (prepFifoCheck (prepMode s toRadioId) sendType).1 with
                  _enableInterruptFlagsReset := 0 }
              (prepFifoCheck (prepMode s toRadioId) sendType).2).map
              fun x => { x with _enableInterruptFlagsReset := 1 }
          else some (prepFifoCheck (prepMode s toRadioId) sendType).1)
    ∧ (∀ toRadioId sendType,
        (prepFifoCheck (prepMode s toRadioId) sendType).1._enableInterruptFlagsReset
          = s._enableInterruptFlagsReset)
    ∧ (∀ fuel x fifoReg x1, drainLoop fuel x fifoReg = some x1 →
        x1._enableInterruptFlagsReset = x._enableInterruptFlagsReset)
    ∧ (∀ prepFuel waitFuel toRadioId data length sendType r,
        send prepFuel waitFuel s toRadioId data length sendType = some r →
        r.1._enableInterruptFlagsReset =
          (if truthy ((prepFifoCheck (prepMode s toRadioId) sendType).2 &&& _BV FIFO_FULL) then 1
           else s._enableInterruptFlagsReset))
    ∧ (∀ prepFuel toRadioId data length sendType s1,
        startSend prepFuel s toRadioId data length sendType = some s1 →
        s1._enableInterruptFlagsReset =
          (if truthy ((prepFifoCheck (prepMode s toRadioId) sendType).2 &&& _BV FIFO_FULL) then 1
           else s._enableInterruptFlagsReset))
    ∧ (s._enableInterruptFlagsReset = 1 →
        (∀ prepFuel waitFuel toRadioId data length sendType r,
          send prepFuel waitFuel s toRadioId data length sendType = some r →
          r.1._enableInterruptFlagsReset = 1)
        ∧ (∀ prepFuel toRadioId data length sendType s1,
          startSend prepFuel s toRadioId data length sendType = some s1 →
          s1._enableInterruptFlagsReset = 1)
        ∧ truthy ((readRegister (whatHappened s).1 STATUS).2 &&& _BV TX_DS) = false
        ∧ truthy ((readRegister (whatHappened s).1 STATUS).2 &&& _BV MAX_RT) = false
        ∧ truthy ((readRegister (whatHappened s).1 STATUS).2 &&& _BV RX_DR) = false) := by
  refine ⟨toggle_init, fun _ _ _ => toggle_of_fields (fields_addAckData _ _ _ _),
    toggle_of_fields (fields_hasAckData s), toggle_hasData s, toggle_hasData s 1,
    fun _ => toggle_of_fields (fields_readData _ _), toggle_of_fields (fields_whatHappened s),
    toggle_of_fields (fields_powerDown s), toggle_of_fields (fields_printDetails s),
    fun _ _ _ => prepForTransmission_eq _ _ _ _,
    fun _ _ => toggle_of_fields (fields_prepFifoCheck _ _ _),
    fun _ _ _ _ hx => toggle_of_fields (fields_drainLoop _ _ _ _ hx), ?_, ?_, ?_⟩
  · intro prepFuel waitFuel toRadioId data length sendType r h
    unfold send at h
    cases hp : prepForTransmission prepFuel s toRadioId sendType with
    | none => rw [hp] at h; exact absurd h (by simp)
    | some s0 =>
      rw [hp] at h
      rw [toggle_of_fields ((fields_sendWait waitFuel _ _ h).trans (fields_sendStart _ _ _ _)),
        toggle_of_fields (fields_prepForTransmission prepFuel s toRadioId sendType s0 hp)]
  · intro prepFuel toRadioId data length sendType s1 h
    unfold startSend at h
    obtain ⟨s0, hp, rfl⟩ := Option.map_eq_some'.mp h
    rw [toggle_of_fields (fields_enqueueAndTrigger _ _ _ _),
      toggle_of_fields (fields_prepForTransmission prepFuel s toRadioId sendType s0 hp)]
  · intro h1
    exact ⟨fun _ _ _ _ _ _ _ h => toggle_send _ _ _ _ _ _ _ _ h1 h,
      fun _ _ _ _ _ _ h => toggle_startSend _ _ _ _ _ _ _ h1 h,
      whatHappened_clears s h1 TX_DS (by decide) (by decide),
      whatHappened_clears s h1 MAX_RT (by decide) (by decide),
      whatHappened_clears s h1 RX_DR (by decide) (by decide)⟩

/-- Witness for C12: `startSend` on the bench with a full TX FIFO goes through the drain loop and
returns with the toggle at 1; `whatHappened` on the bench leaves TX_DS clear. -/
theorem interruptFlagsReset_invariant_witness :
    benchTxFull._enableInterruptFlagsReset = 1
    ∧ truthy ((prepFifoCheck (prepMode benchTxFull 3) SendType.REQUIRE_ACK).2 &&& _BV FIFO_FULL)
        = true
    ∧ startSend 1 benchTxFull 3 [1, 2] 2 SendType.REQUIRE_ACK
        = some (started benchTxFull 3 [1, 2] 2 SendType.REQUIRE_ACK)
    ∧ (started benchTxFull 3 [1, 2] 2 SendType.REQUIRE_ACK)._enableInterruptFlagsReset = 1
    ∧ truthy ((readRegister (whatHappened benchTxFull).1 STATUS).2 &&& _BV TX_DS) = false :=
  ⟨by decide, by decide, rfl,
    ((interruptFlagsReset_invariant benchTxFull).2.2.2.2.2.2.2.2.2.2.2.2.2.2 (by decide)).2.1
      1 3 [1, 2] 2 SendType.REQUIRE_ACK _ rfl,
    ((interruptFlagsReset_invariant benchTxFull).2.2.2.2.2.2.2.2.2.2.2.2.2.2 (by decide)).2.2.1⟩

end NRFLite
